import Mathlib

/-!
Verification of the shared CLI core of the marketingskills repository:
the duplicated `parseArgs` argument parser, the credential gate, the
command dispatch, the dry-run request executor and the top-level error
boundary, embedded shallowly from the JavaScript sources.
-/

namespace Marketing

/-- A value stored in the JS object built by `parseArgs`: a flag value is a
string or the boolean `true`, and the `_` entry starts as the array of
positional tokens. -/
inductive JsVal where
  | str (s : String)
  | bool (b : Bool)
  | arr (xs : List String)
  deriving DecidableEq, Repr

/-- The JS object `result` of `parseArgs`, as its ordered own-property list. -/
abbrev JsObj := List (String × JsVal)

/-- Property read `o[k]` over the object's own properties (the modeled
programs only ever read fixed domain keys and `_`, never an inherited key
such as `__proto__`). -/
def jsGet (o : JsObj) (k : String) : Option JsVal :=
  match o with
  | [] => none
  | (k2, v) :: rest => if k2 = k then some v else jsGet rest k

/-- Own-property write: overwrite an existing key in place, otherwise
append, preserving JS object insertion order. -/
def assocSet (o : JsObj) (k : String) (v : JsVal) : JsObj :=
  match o with
  | [] => [(k, v)]
  | (k2, v2) :: rest => if k2 = k then (k2, v) :: rest else (k2, v2) :: assocSet rest k v

/-- JS property assignment `o[k] = v` on an object literal.  For the key
`__proto__` the assignment does not create an own property: it invokes the
inherited `Object.prototype.__proto__` setter, which ignores every value the
parsers assign (flag values are strings or booleans, and the positionals
array is only ever written at the key `_`), so the store is a silent no-op.
Every other key is an own-property write. -/
def jsSet (o : JsObj) (k : String) (v : JsVal) : JsObj :=
  if k = "__proto__" then o else assocSet o k v

/-- `s.startsWith('--')` as used by every tool's parser. -/
def startsDashDash (s : String) : Bool :=
  match s.data with
  | '-' :: '-' :: _ => true
  | _ => false

/-- `s.slice(2)`: strip the `--` prefix to obtain the flag key. -/
def sliceTwo (s : String) : String := String.mk (s.data.drop 2)

/-- Truthiness of a flag value, as tested by `if (args.x)`:
`undefined`, `false` and the empty string are falsy. -/
def jsTruthy : Option JsVal → Bool
  | none => false
  | some (JsVal.str s) => s ≠ ""
  | some (JsVal.bool b) => b
  | some (JsVal.arr _) => true

/-- The loop body of `parseArgs` (src/tools/clis/klaviyo.js lines 35-53;
duplicated verbatim in every tool).  A token starting with `--` stores into
`result[key]` — for the key `_` this overwrites the positionals array.  A
non-flag token is pushed onto `result._`, which is a JS `TypeError` when
`result._` is no longer an array; the thrown error is the `Except.error`
case.  The guard `next && !next.startsWith('--')` makes an empty following
token falsy, so it is not consumed as a value. -/
def parseArgsGo : List String → JsObj → Except String JsObj
  | [], res => Except.ok res
  | arg :: rest, res =>
    if startsDashDash arg then
      let key := sliceTwo arg
      match rest with
      | next :: rest2 =>
        if next ≠ "" ∧ ¬ startsDashDash next then
          parseArgsGo rest2 (jsSet res key (JsVal.str next))
        else
          parseArgsGo (next :: rest2) (jsSet res key (JsVal.bool true))
      | [] => Except.ok (jsSet res key (JsVal.bool true))
    else
      match jsGet res "_" with
      | some (JsVal.arr xs) => parseArgsGo rest (jsSet res "_" (JsVal.arr (xs ++ [arg])))
      | _ => Except.error "result._.push is not a function"

/-- `parseArgs(args)`: start from `{ _: [] }` and fold the token list. -/
def parseArgs (tokens : List String) : Except String JsObj :=
  parseArgsGo tokens [("_", JsVal.arr [])]

/-- A JS number as constructed by the tools: integer literals are exact,
while `Number(v)` and `parseFloat(v)` conversions are kept symbolic. -/
inductive JsNumber where
  | ofInt (n : Int)
  | numberFrom (v : JsVal)
  | parseFloatFrom (v : JsVal)
  | parseIntFrom (v : JsVal)
  deriving DecidableEq, Repr

/-- The JSON-like values the tools print: response envelopes, error objects
and dry-run request descriptors. -/
inductive Json where
  | str (s : String)
  | num (n : JsNumber)
  | bool (b : Bool)
  | null
  | arr (xs : List Json)
  | obj (fields : List (String × Json))

/-- Field lookup in a JSON object (`none` on non-objects). -/
def Json.lookup : Json → String → Option Json
  | Json.obj fields, k => go fields k
  | _, _ => none
where
  go : List (String × Json) → String → Option Json
    | [], _ => none
    | (k2, v) :: rest, k => if k2 = k then some v else go rest k

/-- JS `s.split(c)` for a single-character separator: splitting the empty
string yields `[""]`, and a trailing separator yields a trailing `""`. -/
def splitOnChar (c : Char) (s : String) : List String :=
  go s.data []
where
  go : List Char → List Char → List String
    | [], acc => [String.mk acc.reverse]
    | x :: xs, acc => if x = c then String.mk acc.reverse :: go xs [] else go xs (x :: acc)

/-- Whitespace trimmed by JS `String.prototype.trim` (the common subset). -/
def jsWhitespace (c : Char) : Bool :=
  c = ' ' ∨ c = '\t' ∨ c = '\n' ∨ c = '\r' ∨ c = '\x0b' ∨ c = '\x0c'

/-- JS `s.trim()`. -/
def jsTrim (s : String) : String :=
  String.mk (((s.data.dropWhile jsWhitespace).reverse.dropWhile jsWhitespace).reverse)

/-- JS `s.startsWith(pre)`. -/
def strStartsWith (s pre : String) : Bool :=
  pre.data.isPrefixOf s.data

/-- Falsiness of a credential read from the environment: unset or empty. -/
def envFalsy : Option String → Bool
  | none => true
  | some s => s = ""

/-- Convert a flag value to a string the way a JS template literal or
`URLSearchParams` does (`true` prints as `"true"`, arrays join with commas). -/
def jsValToString : JsVal → String
  | JsVal.str s => s
  | JsVal.bool true => "true"
  | JsVal.bool false => "false"
  | JsVal.arr xs => String.intercalate "," xs

/-- Stringify a possibly-absent flag value: `undefined` interpolates as the
literal text `"undefined"` in a template literal or a `URLSearchParams`
record. -/
def flagStr (args : JsObj) (k : String) : String :=
  match jsGet args k with
  | some v => jsValToString v
  | none => "undefined"

/-- Lift a raw flag value into a JSON body field (no coercion happens when a
handler stores `args.x` directly into a request body). -/
def jsValToJson : JsVal → Json
  | JsVal.str s => Json.str s
  | JsVal.bool b => Json.bool b
  | JsVal.arr xs => Json.arr (xs.map Json.str)

/-- Raw value of a flag, to be used only under a truthiness guard. -/
def flagVal (args : JsObj) (k : String) : JsVal :=
  (jsGet args k).getD (JsVal.bool false)

/-- JS `args.k || dflt` for a string default. -/
def flagOr (args : JsObj) (k : String) (dflt : String) : JsVal :=
  if jsTruthy (jsGet args k) then flagVal args k else JsVal.str dflt

/-- Property assignment on a JSON object body under construction. -/
def objSet (o : List (String × Json)) (k : String) (v : Json) : List (String × Json) :=
  match o with
  | [] => [(k, v)]
  | (k2, v2) :: rest => if k2 = k then (k2, v) :: rest else (k2, v2) :: objSet rest k v

/-- UTF-8 code units of a character, as byte values. -/
def utf8Units (c : Char) : List Nat :=
  let n := c.toNat
  if n < 128 then [n]
  else if n < 2048 then [192 + n / 64, 128 + n % 64]
  else if n < 65536 then [224 + n / 4096, 128 + (n / 64) % 64, 128 + n % 64]
  else [240 + n / 262144, 128 + (n / 4096) % 64, 128 + (n / 64) % 64, 128 + n % 64]

/-- Upper-case hexadecimal digit. -/
def hexDigit (n : Nat) : Char :=
  if n < 10 then Char.ofNat (48 + n) else Char.ofNat (55 + n)

/-- Percent-encoding of one byte under the `application/x-www-form-urlencoded`
serializer used by `URLSearchParams.toString`: alphanumerics and `*-._` pass
through, space becomes `+`, anything else becomes `%XX`. -/
def formEncodeByte (b : Nat) : List Char :=
  if (48 ≤ b ∧ b ≤ 57) ∨ (65 ≤ b ∧ b ≤ 90) ∨ (97 ≤ b ∧ b ≤ 122) ∨
      b = 42 ∨ b = 45 ∨ b = 46 ∨ b = 95 then
    [Char.ofNat b]
  else if b = 32 then ['+']
  else ['%', hexDigit (b / 16), hexDigit (b % 16)]

/-- Form-encode a string (the `URLSearchParams` component serializer). -/
def formEncode (s : String) : String :=
  String.mk ((s.data.map utf8Units).flatten.map formEncodeByte).flatten

/-- Model of a `URLSearchParams` value: ordered key/value pairs. -/
abbrev Params := List (String × String)

/-- `params.set(k, v)`: replace the value of an existing key in place,
otherwise append. -/
def uspSet (ps : Params) (k v : String) : Params :=
  match ps with
  | [] => [(k, v)]
  | (k2, v2) :: rest => if k2 = k then (k2, v) :: rest else (k2, v2) :: uspSet rest k v

/-- `params.toString()`: `k=v` pairs joined by `&`, both sides form-encoded. -/
def uspToString (ps : Params) : String :=
  String.intercalate "&" (ps.map fun kv => formEncode kv.1 ++ "=" ++ formEncode kv.2)

/-- Conditional `if (args.flag) params.set(key, args.flag)` used by the list
handlers. -/
def setIfTruthy (args : JsObj) (ps : Params) (flag key : String) : Params :=
  if jsTruthy (jsGet args flag) then uspSet ps key (flagStr args flag) else ps

/-- Header maps are ordered string pairs. -/
abbrev Headers := List (String × String)

/-- Spread-and-override `{ ...headers, K: v }` on a header object. -/
def hdrSet (hs : Headers) (k v : String) : Headers :=
  match hs with
  | [] => [(k, v)]
  | (k2, v2) :: rest => if k2 = k then (k2, v) :: rest else (k2, v2) :: hdrSet rest k v

/-- Render a header map as a JSON object for a dry-run descriptor. -/
def headersJson (hs : Headers) : Json :=
  Json.obj (hs.map fun kv => (kv.1, Json.str kv.2))

/-- Values of all headers in a header map. -/
def headerValues (hs : Headers) : List String := hs.map Prod.snd

/-- Outcome of one HTTP fetch, supplied as an oracle: the status, the raw
response text, and the result of `JSON.parse(text)` when that succeeds. -/
structure HttpResp where
  status : Int
  text : String
  parsed : Option Json

/-- Live-path response normalization shared by every tool: the parsed JSON
body, else the fallback envelope with `status` and the raw text. -/
def jsonOrStatus (resp : HttpResp) : Json :=
  match resp.parsed with
  | some j => j
  | none => Json.obj [("status", Json.num (JsNumber.ofInt resp.status)), ("body", Json.str resp.text)]

/-- Optional `body` field of a dry-run descriptor: `body: body || undefined`
is dropped from the printed JSON when there is no body. -/
def bodyField (body : Option Json) : List (String × Json) :=
  match body with
  | some b => [("body", b)]
  | none => []

end Marketing

namespace Marketing

/-! ## Klaviyo (src/tools/clis/klaviyo.js) -/

def klaviyoBase : String := "https://a.klaviyo.com/api"

/-- Request headers built by `api` in klaviyo.js lines 13-18. -/
def klaviyoHeaders (apiKey : String) : Headers :=
  [("Authorization", "Klaviyo-API-Key " ++ apiKey),
   ("Content-Type", "application/json"),
   ("Accept", "application/json"),
   ("revision", "2024-10-15")]

/-- The `api` function of klaviyo.js: in dry-run mode return the descriptor
with the `Authorization` header overridden by the mask, making no fetch; in
live mode perform one fetch and normalize the response.  The second
component counts network calls. -/
def klaviyoApi (apiKey : String) (dryRun : Bool) (resp : HttpResp)
    (method path : String) (body : Option Json) : Json × Nat :=
  if dryRun then
    (Json.obj ([("_dry_run", Json.bool true), ("method", Json.str method),
      ("url", Json.str (klaviyoBase ++ path)),
      ("headers", headersJson (hdrSet (klaviyoHeaders apiKey) "Authorization" "***"))] ++
      bodyField body), 0)
  else
    (jsonOrStatus resp, 1)

/-- Short form for the structured flag errors returned by the handlers. -/
def errJson (msg : String) : Json := Json.obj [("error", Json.str msg)]

/-- Path suffix `qs ? '?' + qs : ''`. -/
def qsSuffix (ps : Params) : String :=
  let qs := uspToString ps
  if qs ≠ "" then "?" ++ qs else ""

/-- Attribute list built by `profiles create` / `profiles update`:
conditionally attach `first_name`, `last_name`, `phone_number`. -/
def klaviyoProfileAttrs (args : JsObj) (base : List (String × Json)) : List (String × Json) :=
  let a := if jsTruthy (jsGet args "first-name") then
    base ++ [("first_name", jsValToJson (flagVal args "first-name"))] else base
  let a := if jsTruthy (jsGet args "last-name") then
    a ++ [("last_name", jsValToJson (flagVal args "last-name"))] else a
  if jsTruthy (jsGet args "phone") then
    a ++ [("phone_number", jsValToJson (flagVal args "phone"))] else a

/-- Property accumulation of `events create`: `--value` adds
`properties.value = Number(args.value)`; `--property k:v,k2:v2` splits on
commas, then on `:`; a pair contributes only when both parts are truthy.
`args.property.split` throws a `TypeError` when the flag value is not a
string (boolean `true` or the positionals array). -/
def klaviyoEventProps (args : JsObj) : Except String (List (String × Json)) :=
  let base : List (String × Json) :=
    if jsTruthy (jsGet args "value") then
      [("value", Json.num (JsNumber.numberFrom (flagVal args "value")))]
    else []
  if jsTruthy (jsGet args "property") then
    match jsGet args "property" with
    | some (JsVal.str s) =>
      Except.ok ((splitOnChar ',' s).foldl (fun acc pair =>
        match splitOnChar ':' pair with
        | k :: v :: _ => if k ≠ "" ∧ v ≠ "" then acc ++ [(k, Json.str v)] else acc
        | _ => acc) base)
    | _ => Except.error "args.property.split is not a function"
  else
    Except.ok base

/-- Relationship payload of `lists add-profiles` / `remove-profiles`:
`args.profiles?.split(',')` yields `undefined` for a missing flag (optional
chaining), splits a string on commas, and throws a `TypeError` on a
non-string value. -/
def klaviyoProfileIds (args : JsObj) : Except String (Option (List String)) :=
  match jsGet args "profiles" with
  | none => Except.ok none
  | some (JsVal.str s) => Except.ok (some (splitOnChar ',' s))
  | some _ => Except.error "args.profiles.split is not a function"

/-- Usage object printed by klaviyo's unknown-command default branch. -/
def klaviyoUsage : Json :=
  Json.obj [("error", Json.str "Unknown command"),
    ("usage", Json.obj
      [("profiles", Json.str "profiles [list | get --id <id> | create --email <email> | update --id <id>]"),
       ("lists", Json.str "lists [list | get --id <id> | create --name <name> | delete --id <id> | add-profiles --id <list-id> --profiles <id1,id2> | remove-profiles --id <list-id> --profiles <id1,id2>]"),
       ("events", Json.str "events [list | get --id <id> | create --metric <name> --email <email>]"),
       ("campaigns", Json.str "campaigns [list | get --id <id>]"),
       ("flows", Json.str "flows [list | get --id <id> | update --id <id> --status <status>]"),
       ("metrics", Json.str "metrics [list | get --id <id>]"),
       ("segments", Json.str "segments [list | get --id <id>]"),
       ("templates", Json.str "templates [list | get --id <id>]"),
       ("options", Json.str "--filter <filter> --page-size <n> --page-cursor <cursor>")])]

/-- Dispatch switch of klaviyo's `main` (lines 58-343).  `cmd` and `sub` are
the first two positionals; `now` is the value of `new Date().toISOString()`
read by `events create`; `resp` is the network oracle for the at most one
fetch.  Returns the printed result and the number of fetches, or the message
of a thrown `TypeError`. -/
def klaviyoMain (apiKey : String) (args : JsObj) (pos : List String) (now : String)
    (resp : HttpResp) : Except String (Json × Nat) :=
  let dryRun := jsTruthy (jsGet args "dry-run")
  let api := klaviyoApi apiKey dryRun resp
  let cmd := pos.get? 0
  let sub := pos.get? 1
  match cmd with
  | some "profiles" =>
    match sub with
    | some "list" =>
      let ps := setIfTruthy args (setIfTruthy args (setIfTruthy args (setIfTruthy args []
        "filter" "filter") "sort" "sort") "page-size" "page[size]") "page-cursor" "page[cursor]"
      Except.ok (api "GET" ("/profiles/" ++ qsSuffix ps) none)
    | some "get" =>
      if ¬ jsTruthy (jsGet args "id") then Except.ok (errJson "--id required", 0)
      else Except.ok (api "GET" ("/profiles/" ++ flagStr args "id" ++ "/") none)
    | some "create" =>
      if ¬ jsTruthy (jsGet args "email") then Except.ok (errJson "--email required", 0)
      else
        let attrs := klaviyoProfileAttrs args
          [("email", jsValToJson (flagVal args "email"))]
        Except.ok (api "POST" "/profiles/" (some (Json.obj [("data",
          Json.obj [("type", Json.str "profile"), ("attributes", Json.obj attrs)])])))
    | some "update" =>
      if ¬ jsTruthy (jsGet args "id") then Except.ok (errJson "--id required", 0)
      else
        let attrs := klaviyoProfileAttrs args
          (if jsTruthy (jsGet args "email") then
            [("email", jsValToJson (flagVal args "email"))] else [])
        Except.ok (api "PATCH" ("/profiles/" ++ flagStr args "id" ++ "/")
          (some (Json.obj [("data", Json.obj [("type", Json.str "profile"),
            ("id", jsValToJson (flagVal args "id")),
            ("attributes", Json.obj attrs)])])))
    | _ => Except.ok (errJson "Unknown profiles subcommand. Use: list, get, create, update", 0)
  | some "lists" =>
    match sub with
    | some "list" =>
      let ps := setIfTruthy args [] "page-size" "page[size]"
      Except.ok (api "GET" ("/lists/" ++ qsSuffix ps) none)
    | some "get" =>
      if ¬ jsTruthy (jsGet args "id") then Except.ok (errJson "--id required", 0)
      else Except.ok (api "GET" ("/lists/" ++ flagStr args "id" ++ "/") none)
    | some "create" =>
      if ¬ jsTruthy (jsGet args "name") then Except.ok (errJson "--name required", 0)
      else Except.ok (api "POST" "/lists/" (some (Json.obj [("data",
        Json.obj [("type", Json.str "list"), ("attributes", Json.obj
          [("name", jsValToJson (flagVal args "name"))])])])))
    | some "delete" =>
      if ¬ jsTruthy (jsGet args "id") then Except.ok (errJson "--id required", 0)
      else Except.ok (api "DELETE" ("/lists/" ++ flagStr args "id" ++ "/") none)
    | some "add-profiles" =>
      if ¬ jsTruthy (jsGet args "id") then Except.ok (errJson "--id required (list ID)", 0)
      else
        match klaviyoProfileIds args with
        | Except.error e => Except.error e
        | Except.ok none =>
          Except.ok (errJson "--profiles required (comma-separated profile IDs)", 0)
        | Except.ok (some ids) =>
          Except.ok (api "POST" ("/lists/" ++ flagStr args "id" ++ "/relationships/profiles/")
            (some (Json.obj [("data", Json.arr (ids.map fun pid =>
              Json.obj [("type", Json.str "profile"), ("id", Json.str pid)]))])))
    | some "remove-profiles" =>
      if ¬ jsTruthy (jsGet args "id") then Except.ok (errJson "--id required (list ID)", 0)
      else
        match klaviyoProfileIds args with
        | Except.error e => Except.error e
        | Except.ok none =>
          Except.ok (errJson "--profiles required (comma-separated profile IDs)", 0)
        | Except.ok (some ids) =>
          Except.ok (api "DELETE" ("/lists/" ++ flagStr args "id" ++ "/relationships/profiles/")
            (some (Json.obj [("data", Json.arr (ids.map fun pid =>
              Json.obj [("type", Json.str "profile"), ("id", Json.str pid)]))])))
    | _ => Except.ok (errJson "Unknown lists subcommand. Use: list, get, create, delete, add-profiles, remove-profiles", 0)
  | some "events" =>
    match sub with
    | some "list" =>
      let ps := setIfTruthy args (setIfTruthy args [] "filter" "filter") "page-size" "page[size]"
      Except.ok (api "GET" ("/events/" ++ qsSuffix ps) none)
    | some "get" =>
      if ¬ jsTruthy (jsGet args "id") then Except.ok (errJson "--id required", 0)
      else Except.ok (api "GET" ("/events/" ++ flagStr args "id" ++ "/") none)
    | some "create" =>
      if ¬ jsTruthy (jsGet args "metric") then Except.ok (errJson "--metric required (metric name)", 0)
      else if ¬ jsTruthy (jsGet args "email") then Except.ok (errJson "--email required", 0)
      else
        match klaviyoEventProps args with
        | Except.error e => Except.error e
        | Except.ok props =>
          Except.ok (api "POST" "/events/" (some (Json.obj [("data", Json.obj
            [("type", Json.str "event"),
             ("attributes", Json.obj
               [("metric", Json.obj [("data", Json.obj [("type", Json.str "metric"),
                  ("attributes", Json.obj [("name",
                    jsValToJson (flagVal args "metric"))])])]),
                ("profile", Json.obj [("data", Json.obj [("type", Json.str "profile"),
                  ("attributes", Json.obj [("email",
                    jsValToJson (flagVal args "email"))])])]),
                ("properties", Json.obj props),
                ("time", Json.str now)])])])))
    | _ => Except.ok (errJson "Unknown events subcommand. Use: list, get, create", 0)
  | some "campaigns" =>
    match sub with
    | some "list" =>
      let ps := setIfTruthy args (setIfTruthy args [] "filter" "filter") "page-size" "page[size]"
      Except.ok (api "GET" ("/campaigns/" ++ qsSuffix ps) none)
    | some "get" =>
      if ¬ jsTruthy (jsGet args "id") then Except.ok (errJson "--id required", 0)
      else Except.ok (api "GET" ("/campaigns/" ++ flagStr args "id" ++ "/") none)
    | _ => Except.ok (errJson "Unknown campaigns subcommand. Use: list, get", 0)
  | some "flows" =>
    match sub with
    | some "list" =>
      let ps := setIfTruthy args (setIfTruthy args [] "filter" "filter") "page-size" "page[size]"
      Except.ok (api "GET" ("/flows/" ++ qsSuffix ps) none)
    | some "get" =>
      if ¬ jsTruthy (jsGet args "id") then Except.ok (errJson "--id required", 0)
      else Except.ok (api "GET" ("/flows/" ++ flagStr args "id" ++ "/") none)
    | some "update" =>
      if ¬ jsTruthy (jsGet args "id") then Except.ok (errJson "--id required", 0)
      else
        let attrs := if jsTruthy (jsGet args "status") then
          [("status", jsValToJson (flagVal args "status"))] else []
        Except.ok (api "PATCH" ("/flows/" ++ flagStr args "id" ++ "/")
          (some (Json.obj [("data", Json.obj [("type", Json.str "flow"),
            ("id", jsValToJson (flagVal args "id")),
            ("attributes", Json.obj attrs)])])))
    | _ => Except.ok (errJson "Unknown flows subcommand. Use: list, get, update", 0)
  | some "metrics" =>
    match sub with
    | some "list" =>
      let ps := setIfTruthy args [] "page-size" "page[size]"
      Except.ok (api "GET" ("/metrics/" ++ qsSuffix ps) none)
    | some "get" =>
      if ¬ jsTruthy (jsGet args "id") then Except.ok (errJson "--id required", 0)
      else Except.ok (api "GET" ("/metrics/" ++ flagStr args "id" ++ "/") none)
    | _ => Except.ok (errJson "Unknown metrics subcommand. Use: list, get", 0)
  | some "segments" =>
    match sub with
    | some "list" =>
      let ps := setIfTruthy args [] "page-size" "page[size]"
      Except.ok (api "GET" ("/segments/" ++ qsSuffix ps) none)
    | some "get" =>
      if ¬ jsTruthy (jsGet args "id") then Except.ok (errJson "--id required", 0)
      else Except.ok (api "GET" ("/segments/" ++ flagStr args "id" ++ "/") none)
    | _ => Except.ok (errJson "Unknown segments subcommand. Use: list, get", 0)
  | some "templates" =>
    match sub with
    | some "list" =>
      let ps := setIfTruthy args (setIfTruthy args [] "filter" "filter") "page-size" "page[size]"
      Except.ok (api "GET" ("/templates/" ++ qsSuffix ps) none)
    | some "get" =>
      if ¬ jsTruthy (jsGet args "id") then Except.ok (errJson "--id required", 0)
      else Except.ok (api "GET" ("/templates/" ++ flagStr args "id" ++ "/") none)
    | _ => Except.ok (errJson "Unknown templates subcommand. Use: list, get", 0)
  | _ => Except.ok (klaviyoUsage, 0)

/-- Observable outcome of one process run. -/
inductive ProcOutcome where
  | credError (msg : String)
  | crash (msg : String)
  | printed (v : Json)
  | caught (msg : String)

/-- Module-scope destructuring `const [cmd, sub, ...rest] = args._`: an array
destructures to its elements, a string to its characters, anything else is a
`TypeError` (not iterable). -/
def destructUnderscore : Option JsVal → Except String (List String)
  | some (JsVal.arr xs) => Except.ok xs
  | some (JsVal.str s) => Except.ok (s.data.map fun c => String.mk [c])
  | _ => Except.error "args._ is not iterable"

/-- Whole klaviyo process: credential gate (module top), module-scope
`parseArgs` and positional destructuring (outside any catch), then `main`
wrapped by `main().catch` which prints the error as JSON on stderr and exits
with code 1.  The second component counts network fetches (every throwing
path in klaviyo's `main` precedes its single `api` call, so a caught run has
made no fetch). -/
def klaviyoRun (env : Option String) (tokens : List String) (now : String)
    (resp : HttpResp) : ProcOutcome × Nat :=
  match env with
  | none => (ProcOutcome.credError "KLAVIYO_API_KEY environment variable required", 0)
  | some key =>
    if key = "" then (ProcOutcome.credError "KLAVIYO_API_KEY environment variable required", 0)
    else
      match parseArgs tokens with
      | Except.error e => (ProcOutcome.crash e, 0)
      | Except.ok args =>
        match destructUnderscore (jsGet args "_") with
        | Except.error e => (ProcOutcome.crash e, 0)
        | Except.ok pos =>
          match klaviyoMain key args pos now resp with
          | Except.ok (j, n) => (ProcOutcome.printed j, n)
          | Except.error e => (ProcOutcome.caught e, 0)

/-- Shared process shape of every tool file: the credential gate runs at
module top, then the module-scope `parseArgs` call and the positional
destructuring (both outside any exception handler), and only then `main`.
The dispatch body is a parameter, so facts proved for all `mainRun` hold for
every tool with this layout. -/
def gatedRun (gateFails : Bool) (gateMsg : String) (tokens : List String)
    (mainRun : JsObj → List String → ProcOutcome × Nat) : ProcOutcome × Nat :=
  if gateFails then (ProcOutcome.credError gateMsg, 0)
  else
    match parseArgs tokens with
    | Except.error e => (ProcOutcome.crash e, 0)
    | Except.ok args =>
      match destructUnderscore (jsGet args "_") with
      | Except.error e => (ProcOutcome.crash e, 0)
      | Except.ok pos => mainRun args pos

end Marketing

namespace Marketing

/-! ## Hotjar (src/tools/clis/hotjar.js): OAuth client-credentials cache -/

def hotjarBase : String := "https://api.hotjar.io/v1"

/-- Parsed body of the OAuth token response: the `access_token` field when
present, and the message a throw would carry otherwise
(`data.error_description || data.error || 'Failed to obtain access token'`,
supplied by the response oracle). -/
structure TokenResp where
  accessToken : Option String
  errMsg : String

/-- `getToken` of hotjar.js lines 14-27: return the cached token if the slot
is filled; otherwise fetch the token endpoint once, throw when the response
has no `access_token`, and fill the slot on success.  Result: token, new
cache slot, number of fetches performed by this call. -/
def hotjarGetToken (cache : Option String) (t : TokenResp) :
    Except String (String × Option String × Nat) :=
  match cache with
  | some tok => Except.ok (tok, some tok, 0)
  | none =>
    match t.accessToken with
    | some tok => Except.ok (tok, some tok, 1)
    | none => Except.error t.errMsg

/-- Run `n` successive `getToken` calls in one hotjar process, threading the
cache slot; a throw terminates the process (nothing later runs).  Returns
the surviving cache and the total number of token fetches. -/
def hotjarTokenRun : Nat → Option String → TokenResp → Except String (Option String) × Nat
  | 0, cache, _ => (Except.ok cache, 0)
  | Nat.succ n, cache, t =>
    match hotjarGetToken cache t with
    | Except.error e => (Except.error e, 1)
    | Except.ok (_, cache2, f) =>
      let r := hotjarTokenRun n cache2 t
      (r.1, f + r.2)

/-- The `api` function of hotjar.js lines 29-48: dry-run short-circuits
before any token acquisition; the live path first obtains a bearer token
(which may throw) and then performs the one resource fetch.  The count
includes the token fetch. -/
def hotjarApi (dryRun : Bool) (cache : Option String) (t : TokenResp) (resp : HttpResp)
    (method path : String) : Except String Json × Nat :=
  if dryRun then
    (Except.ok (Json.obj [("_dry_run", Json.bool true), ("method", Json.str method),
      ("url", Json.str (hotjarBase ++ path)),
      ("headers", Json.obj [("Authorization", Json.str "***"),
        ("Content-Type", Json.str "application/json"),
        ("Accept", Json.str "application/json")])]), 0)
  else
    match hotjarGetToken cache t with
    | Except.error e => (Except.error e, 1)
    | Except.ok (_, _, f) => (Except.ok (jsonOrStatus resp), f + 1)

/-- Usage object of hotjar's unknown-command branch (lines 148-157). -/
def hotjarUsage : Json :=
  Json.obj [("error", Json.str "Unknown command"),
    ("usage", Json.obj
      [("sites", Json.str "sites list"),
       ("surveys", Json.str "surveys list --site-id <id> | surveys responses --site-id <id> --survey-id <id> [--limit <n>] [--cursor <cursor>]"),
       ("heatmaps", Json.str "heatmaps list --site-id <id>"),
       ("recordings", Json.str "recordings list --site-id <id> [--limit <n>] [--cursor <cursor>] [--date-from <date>] [--date-to <date>]"),
       ("forms", Json.str "forms list --site-id <id>")])]

/-- Dispatch switch of hotjar's `main` (lines 73-161).  The process-lifetime
token cache starts empty (`let cachedToken = null` at module scope), and
every handler performs at most one `api` call. -/
def hotjarMain (args : JsObj) (pos : List String) (t : TokenResp) (resp : HttpResp) :
    Except String Json × Nat :=
  let dryRun := jsTruthy (jsGet args "dry-run")
  let api := hotjarApi dryRun none t resp
  let siteId := jsGet args "site-id"
  let limit := flagOr args "limit" "100"
  let cursor := jsGet args "cursor"
  let cmd := pos.get? 0
  let sub := pos.get? 1
  match cmd with
  | some "sites" =>
    match sub with
    | some "list" => api "GET" "/sites"
    | _ => (Except.ok (errJson "Unknown sites subcommand. Use: list"), 0)
  | some "surveys" =>
    if ¬ jsTruthy siteId then (Except.ok (errJson "--site-id required"), 0)
    else
      match sub with
      | some "list" => api "GET" ("/sites/" ++ flagStr args "site-id" ++ "/surveys")
      | some "responses" =>
        if ¬ jsTruthy (jsGet args "survey-id") then
          (Except.ok (errJson "--survey-id required"), 0)
        else
          let ps : Params := [("limit", jsValToString limit)]
          let ps := if jsTruthy cursor then uspSet ps "cursor" (flagStr args "cursor") else ps
          api "GET" ("/sites/" ++ flagStr args "site-id" ++ "/surveys/" ++
            flagStr args "survey-id" ++ "/responses?" ++ uspToString ps)
      | _ => (Except.ok (errJson "Unknown surveys subcommand. Use: list, responses"), 0)
  | some "heatmaps" =>
    if ¬ jsTruthy siteId then (Except.ok (errJson "--site-id required"), 0)
    else
      match sub with
      | some "list" => api "GET" ("/sites/" ++ flagStr args "site-id" ++ "/heatmaps")
      | _ => (Except.ok (errJson "Unknown heatmaps subcommand. Use: list"), 0)
  | some "recordings" =>
    if ¬ jsTruthy siteId then (Except.ok (errJson "--site-id required"), 0)
    else
      match sub with
      | some "list" =>
        let ps : Params := [("limit", jsValToString limit)]
        let ps := if jsTruthy cursor then uspSet ps "cursor" (flagStr args "cursor") else ps
        let ps := setIfTruthy args ps "date-from" "date_from"
        let ps := setIfTruthy args ps "date-to" "date_to"
        api "GET" ("/sites/" ++ flagStr args "site-id" ++ "/recordings?" ++ uspToString ps)
      | _ => (Except.ok (errJson "Unknown recordings subcommand. Use: list"), 0)
  | some "forms" =>
    if ¬ jsTruthy siteId then (Except.ok (errJson "--site-id required"), 0)
    else
      match sub with
      | some "list" => api "GET" ("/sites/" ++ flagStr args "site-id" ++ "/forms")
      | _ => (Except.ok (errJson "Unknown forms subcommand. Use: list"), 0)
  | _ => (Except.ok hotjarUsage, 0)

/-- Whole hotjar process: gate on both client credentials, module-scope
parse, then `main` under `main().catch`. -/
def hotjarRun (cid csecret : Option String) (tokens : List String) (t : TokenResp)
    (resp : HttpResp) : ProcOutcome × Nat :=
  gatedRun (envFalsy cid || envFalsy csecret)
    "HOTJAR_CLIENT_ID and HOTJAR_CLIENT_SECRET environment variables required" tokens
    (fun args pos =>
      match hotjarMain args pos t resp with
      | (Except.ok j, n) => (ProcOutcome.printed j, n)
      | (Except.error e, n) => (ProcOutcome.caught e, n))

/-! ## Trustpilot (src/tools/clis/trustpilot.js): token cache without throw -/

def trustpilotBase : String := "https://api.trustpilot.com/v1"

/-- `getAccessToken` of trustpilot.js lines 15-32: cache hit returns the
slot; a falsy `TRUSTPILOT_API_SECRET` returns `null` without fetching;
otherwise one fetch is made and the slot is filled only when the response
carries `access_token` (`null` is returned, uncached, otherwise).  The
outgoing Basic-auth token request itself is network detail the oracle
absorbs.  Result: token-or-null, new cache slot, fetches. -/
def tpGetAccessToken (cache : Option String) (secret : Option String)
    (tresp : Option String) : Option String × Option String × Nat :=
  match cache with
  | some tok => (some tok, some tok, 0)
  | none =>
    if envFalsy secret then (none, none, 0)
    else
      match tresp with
      | some tok => (some tok, some tok, 1)
      | none => (none, none, 1)

/-- The `api` function of trustpilot.js lines 34-68.  In dry-run mode the
masked header map carries `Authorization: ***` for bearer endpoints and
`apikey: ***` otherwise, and no fetch of any kind occurs.  In live bearer
mode a `null` token becomes the structured error object; otherwise the one
resource fetch happens. -/
def tpApi (apiKey : String) (secret : Option String) (dryRun bearer : Bool)
    (cache : Option String) (tresp : Option String) (resp : HttpResp)
    (method path : String) (body : Option Json) : Json × Option String × Nat :=
  if dryRun then
    let masked : Headers :=
      [("Content-Type", "application/json"), ("Accept", "application/json")] ++
        (if bearer then [("Authorization", "***")] else [("apikey", "***")])
    (Json.obj ([("_dry_run", Json.bool true), ("method", Json.str method),
      ("url", Json.str (trustpilotBase ++ path)),
      ("headers", headersJson masked)] ++ bodyField body), cache, 0)
  else if bearer then
    match tpGetAccessToken cache secret tresp with
    | (none, cache2, f) =>
      (errJson "TRUSTPILOT_API_SECRET required for private API endpoints", cache2, f)
    | (some _, cache2, f) => (jsonOrStatus resp, cache2, f + 1)
  else
    let _ := apiKey
    (jsonOrStatus resp, cache, 1)

/-- The `reviews reply` handler of trustpilot's `main` (lines 159-166): the
one bearer-authenticated call a process dispatching this command makes. -/
def tpReviewsReply (apiKey : String) (secret : Option String) (args : JsObj)
    (tresp : Option String) (resp : HttpResp) : Json × Nat :=
  let dryRun := jsTruthy (jsGet args "dry-run")
  if ¬ jsTruthy (jsGet args "id") then (errJson "--id required", 0)
  else if ¬ jsTruthy (jsGet args "message") then (errJson "--message required", 0)
  else
    let r := tpApi apiKey secret dryRun true none tresp resp "POST"
      ("/private/reviews/" ++ flagStr args "id" ++ "/reply")
      (some (Json.obj [("message", jsValToJson (flagVal args "message"))]))
    (r.1, r.2.2)

/-! ## TikTok Ads (src/tools/clis/tiktok-ads.js) -/

def tiktokBase : String := "https://business-api.tiktok.com/open_api/v1.3"

/-- The `api` function of tiktok-ads.js lines 12-33. -/
def tiktokApi (dryRun : Bool) (resp : HttpResp) (method path : String)
    (body : Option Json) : Json × Nat :=
  if dryRun then
    (Json.obj ([("_dry_run", Json.bool true), ("method", Json.str method),
      ("url", Json.str (tiktokBase ++ path)),
      ("headers", Json.obj [("Access-Token", Json.str "***"),
        ("Content-Type", Json.str "application/json")])] ++ bodyField body), 0)
  else (jsonOrStatus resp, 1)

/-- `getAdvertiserId`: the `--advertiser-id` flag when truthy, else the
`TIKTOK_ADVERTISER_ID` environment value. -/
def tiktokAdvertiserId (args : JsObj) (envAdv : Option String) : Option JsVal :=
  if jsTruthy (jsGet args "advertiser-id") then jsGet args "advertiser-id"
  else envAdv.map JsVal.str

/-- The `campaigns create` handler of tiktok-ads.js lines 89-102: requires a
truthy advertiser id and both `--name` and `--objective` before any network
call. -/
def tiktokCampaignsCreate (args : JsObj) (envAdv : Option String) (dryRun : Bool)
    (resp : HttpResp) : Json × Nat :=
  let advId := tiktokAdvertiserId args envAdv
  if ¬ jsTruthy advId then
    (errJson "TIKTOK_ADVERTISER_ID env or --advertiser-id required", 0)
  else if ¬ jsTruthy (jsGet args "name") ∨ ¬ jsTruthy (jsGet args "objective") then
    (errJson "--name and --objective required", 0)
  else
    let body : List (String × Json) :=
      [("advertiser_id", jsValToJson (advId.getD (JsVal.bool false))),
       ("campaign_name", jsValToJson (flagVal args "name")),
       ("objective_type", jsValToJson (flagVal args "objective")),
       ("budget_mode", jsValToJson (flagOr args "budget-mode" "BUDGET_MODE_DAY"))]
    let body := if jsTruthy (jsGet args "budget") then
      body ++ [("budget", Json.num (JsNumber.parseFloatFrom (flagVal args "budget")))]
      else body
    tiktokApi dryRun resp "POST" "/campaign/create/" (some (Json.obj body))

end Marketing

namespace Marketing

/-! ## SEMrush (src/tools/clis/semrush.js): no required-flag guards -/

def semrushBase : String := "https://api.semrush.com/"

/-- `parseCSV` of semrush.js lines 11-26: split the trimmed body on
newlines, take the first line as `;`-separated headers, and build one row
object per further non-blank line, filling missing cells with `""`. -/
def parseCSV (text : String) : Json :=
  let lines := splitOnChar '\n' (jsTrim text)
  if lines.length < 2 then Json.arr []
  else
    match lines with
    | [] => Json.arr []
    | hdr :: rest =>
      let headers := splitOnChar ';' hdr
      Json.arr ((rest.filter (fun l => jsTrim l ≠ "")).map (fun line =>
        Json.obj (buildRow [] headers (splitOnChar ';' line))))
where
  buildRow (row : List (String × Json)) :
      List String → List String → List (String × Json)
    | [], _ => row
    | h :: hs, vs => buildRow (objSet row h (Json.str (vs.headD ""))) hs vs.tail

/-- The `api` function of semrush.js lines 28-45: the key and
`export_escape` are set into the query; dry-run masks the `key` parameter in
a copy of the query and returns a descriptor with an empty header map; the
live path distinguishes non-2xx responses, `ERROR`-prefixed bodies, and CSV
payloads. -/
def semrushApi (apiKey : String) (dryRun : Bool) (resp : HttpResp)
    (params : Params) : Json × Nat :=
  let params := uspSet (uspSet params "key" apiKey) "export_escape" "1"
  if dryRun then
    let masked := uspSet params "key" "***"
    (Json.obj [("_dry_run", Json.bool true), ("method", Json.str "GET"),
      ("url", Json.str (semrushBase ++ "?" ++ uspToString masked)),
      ("headers", Json.obj [])], 0)
  else
    let ok := decide (200 ≤ resp.status ∧ resp.status < 300)
    if ¬ ok then
      (Json.obj [("error", Json.str (jsTrim resp.text)),
        ("status", Json.num (JsNumber.ofInt resp.status))], 1)
    else if strStartsWith resp.text "ERROR" then
      (errJson (jsTrim resp.text), 1)
    else (parseCSV resp.text, 1)

/-- Usage object of semrush's unknown-command branch (lines 179-193). -/
def semrushUsage : Json :=
  Json.obj [("error", Json.str "Unknown command"),
    ("usage", Json.obj
      [("domain overview", Json.str "domain overview --domain <domain>"),
       ("domain organic", Json.str "domain organic --domain <domain> [--database <db>] [--limit <n>]"),
       ("domain competitors", Json.str "domain competitors --domain <domain> [--database <db>] [--limit <n>]"),
       ("keywords overview", Json.str "keywords overview --phrase <phrase> [--database <db>]"),
       ("keywords related", Json.str "keywords related --phrase <phrase> [--database <db>] [--limit <n>]"),
       ("keywords difficulty", Json.str "keywords difficulty --phrase <phrase> [--database <db>]"),
       ("backlinks overview", Json.str "backlinks overview --target <domain>"),
       ("backlinks list", Json.str "backlinks list --target <domain> [--limit <n>]"),
       ("databases", Json.str "us (default), uk, de, fr, ca, au, etc.")])]

/-- Dispatch switch of semrush's `main` (lines 70-196).  No handler guards
its documented required flag: an absent `--domain`, `--phrase` or `--target`
is serialized into the query as the literal `undefined` by the
`URLSearchParams` record conversion, and the request is still issued. -/
def semrushMain (apiKey : String) (args : JsObj) (pos : List String)
    (resp : HttpResp) : Json × Nat :=
  let dryRun := jsTruthy (jsGet args "dry-run")
  let api := semrushApi apiKey dryRun resp
  let database := jsValToString (flagOr args "database" "us")
  let withLimit := fun (ps : Params) =>
    if jsTruthy (jsGet args "limit") then uspSet ps "display_limit" (flagStr args "limit") else ps
  let cmd := pos.get? 0
  let sub := pos.get? 1
  match cmd with
  | some "domain" =>
    match sub with
    | some "overview" =>
      api [("type", "domain_ranks"), ("export_columns", "Db,Dn,Rk,Or,Ot,Oc,Ad,At,Ac"),
        ("domain", flagStr args "domain")]
    | some "organic" =>
      api (withLimit [("type", "domain_organic"),
        ("export_columns", "Ph,Po,Pp,Pd,Nq,Cp,Ur,Tr,Tc,Co,Nr"),
        ("domain", flagStr args "domain"), ("database", database)])
    | some "competitors" =>
      api (withLimit [("type", "domain_organic_organic"),
        ("export_columns", "Dn,Cr,Np,Or,Ot,Oc,Ad"),
        ("domain", flagStr args "domain"), ("database", database)])
    | _ => (errJson "Unknown domain subcommand. Use: overview, organic, competitors", 0)
  | some "keywords" =>
    match sub with
    | some "overview" =>
      api [("type", "phrase_all"), ("export_columns", "Ph,Nq,Cp,Co,Nr"),
        ("phrase", flagStr args "phrase"), ("database", database)]
    | some "related" =>
      api (withLimit [("type", "phrase_related"), ("export_columns", "Ph,Nq,Cp,Co,Nr,Td"),
        ("phrase", flagStr args "phrase"), ("database", database)])
    | some "difficulty" =>
      api [("type", "phrase_kdi"), ("export_columns", "Ph,Kd"),
        ("phrase", flagStr args "phrase"), ("database", database)]
    | _ => (errJson "Unknown keywords subcommand. Use: overview, related, difficulty", 0)
  | some "backlinks" =>
    match sub with
    | some "overview" =>
      api [("type", "backlinks_overview"), ("target", flagStr args "target"),
        ("target_type", "root_domain")]
    | some "list" =>
      api (withLimit [("type", "backlinks"), ("target", flagStr args "target"),
        ("target_type", "root_domain"),
        ("export_columns", "source_url,source_title,target_url,anchor")])
    | _ => (errJson "Unknown backlinks subcommand. Use: overview, list", 0)
  | _ => (semrushUsage, 0)

/-- Whole semrush process (no handler can throw, so no caught outcome
arises from `main`). -/
def semrushRun (env : Option String) (tokens : List String) (resp : HttpResp) :
    ProcOutcome × Nat :=
  gatedRun (envFalsy env) "SEMRUSH_API_KEY environment variable required" tokens
    (fun args pos =>
      let r := semrushMain (env.getD "") args pos resp
      (ProcOutcome.printed r.1, r.2))

/-! ## Mixpanel (src/unnamed/part_010): credential in the ingestion body -/

def mixIngestionBase : String := "https://api.mixpanel.com"

/-- `ingestApi` of part_010 lines 15-31: the header map carries only
`Content-Type` (no credential header exists on the ingestion path), and the
dry-run descriptor returns the body untouched. -/
def mixIngestApi (dryRun : Bool) (resp : HttpResp) (method path : String)
    (body : Option Json) : Json × Nat :=
  let headers : Headers := [("Content-Type", "application/json")]
  if dryRun then
    (Json.obj ([("_dry_run", Json.bool true), ("method", Json.str method),
      ("url", Json.str (mixIngestionBase ++ path)),
      ("headers", headersJson headers)] ++ bodyField body), 0)
  else (jsonOrStatus resp, 1)

/-- The `track event` handler of part_010 lines 112-124.  `propsOracle` is
the outcome of `JSON.parse(args.properties)` for a truthy `--properties`
flag (an object result; a parse throw is the error case); with the flag
absent the source substitutes `{}`.  The handler then assigns the real
`MIXPANEL_TOKEN` into `properties.token` and the distinct id into
`properties.distinct_id` before building the `/track` body. -/
def mixTrackEvent (token : Option String) (args : JsObj)
    (propsOracle : Except String (List (String × Json))) (dryRun : Bool)
    (resp : HttpResp) : Except String (Json × Nat) :=
  if envFalsy token then Except.ok (errJson "MIXPANEL_TOKEN required for tracking", 0)
  else if ¬ jsTruthy (jsGet args "distinct-id") then
    Except.ok (errJson "--distinct-id required", 0)
  else if ¬ jsTruthy (jsGet args "event") then Except.ok (errJson "--event required", 0)
  else
    match (if jsTruthy (jsGet args "properties") then propsOracle else Except.ok []) with
    | Except.error e => Except.error e
    | Except.ok props =>
      let props := objSet props "token" (Json.str (token.getD ""))
      let props := objSet props "distinct_id" (jsValToJson (flagVal args "distinct-id"))
      Except.ok (mixIngestApi dryRun resp "POST" "/track"
        (some (Json.arr [Json.obj [("event", jsValToJson (flagVal args "event")),
          ("properties", Json.obj props)]])))

/-- The `profiles set` handler of part_010 lines 132-141: the `/engage`
body carries the real `MIXPANEL_TOKEN` as `$token`. -/
def mixProfilesSet (token : Option String) (args : JsObj)
    (propsOracle : Except String (List (String × Json))) (dryRun : Bool)
    (resp : HttpResp) : Except String (Json × Nat) :=
  if envFalsy token then Except.ok (errJson "MIXPANEL_TOKEN required for profiles", 0)
  else if ¬ jsTruthy (jsGet args "distinct-id") then
    Except.ok (errJson "--distinct-id required", 0)
  else
    match (if jsTruthy (jsGet args "properties") then propsOracle else Except.ok []) with
    | Except.error e => Except.error e
    | Except.ok props =>
      Except.ok (mixIngestApi dryRun resp "POST" "/engage"
        (some (Json.arr [Json.obj [("$token", Json.str (token.getD "")),
          ("$distinct_id", jsValToJson (flagVal args "distinct-id")),
          ("$set", Json.obj props)]])))

/-- Composite credential gate of part_010 lines 10-13:
`if (!TOKEN && !API_KEY)`. -/
def mixpanelGateFails (token apiKey : Option String) : Bool :=
  envFalsy token && envFalsy apiKey

def mixpanelGateMsg : String :=
  "MIXPANEL_TOKEN (for ingestion) or MIXPANEL_API_KEY + MIXPANEL_SECRET (for query/export) environment variables required"

def mixQueryBase : String := "https://mixpanel.com/api/2.0"

/-- `queryApiPost` of part_010 lines 58-81: the credential guard runs
first, then the dry-run short-circuit masks the Basic `Authorization`
header; the live path performs the one POST. -/
def mixQueryApiPost (apiKey secret : Option String) (dryRun : Bool) (resp : HttpResp)
    (path : String) (body : Json) : Json × Nat :=
  if envFalsy apiKey || envFalsy secret then
    (errJson "MIXPANEL_API_KEY and MIXPANEL_SECRET required for query/export operations", 0)
  else if dryRun then
    (Json.obj ([("_dry_run", Json.bool true), ("method", Json.str "POST"),
      ("url", Json.str (mixQueryBase ++ path)),
      ("headers", Json.obj [("Authorization", Json.str "***"),
        ("Content-Type", Json.str "application/json")])] ++
      bodyField (some body)), 0)
  else (jsonOrStatus resp, 1)

/-- The `query events` handler of part_010 lines 148-169.  `defFrom` and
`defTo` stand for the clock-derived defaults
`new Date(Date.now() - 30 * 86400000).toISOString().slice(0, 10)` and
`new Date().toISOString().slice(0, 10)`, read only when the respective
date flag is falsy. -/
def mixQueryEvents (apiKey secret : Option String) (args : JsObj)
    (defFrom defTo : String) (dryRun : Bool) (resp : HttpResp) : Json × Nat :=
  if ¬ jsTruthy (jsGet args "project-id") then (errJson "--project-id required", 0)
  else
    let body := Json.obj
      [("project_id", Json.num (JsNumber.parseIntFrom (flagVal args "project-id"))),
       ("bookmark_id", Json.null),
       ("params", Json.obj
         [("events", Json.arr [Json.obj [("event", jsValToJson (flagOr args "event" "all"))]]),
          ("time_range", Json.obj
            [("from_date", if jsTruthy (jsGet args "from-date") then
                jsValToJson (flagVal args "from-date") else Json.str defFrom),
             ("to_date", if jsTruthy (jsGet args "to-date") then
                jsValToJson (flagVal args "to-date") else Json.str defTo)])])]
    mixQueryApiPost apiKey secret dryRun resp "/insights" body

/-! ## Intercom (src/unnamed/part_002): clock default in events create -/

def intercomBase : String := "https://api.intercom.io"

/-- The `api` function of part_002 lines 11-31. -/
def intercomApi (apiKey : String) (dryRun : Bool) (resp : HttpResp)
    (method path : String) (body : Option Json) : Json × Nat :=
  if dryRun then
    (Json.obj ([("_dry_run", Json.bool true), ("method", Json.str method),
      ("url", Json.str (intercomBase ++ path)),
      ("headers", Json.obj [("Authorization", Json.str "***"),
        ("Content-Type", Json.str "application/json"),
        ("Accept", Json.str "application/json"),
        ("Intercom-Version", Json.str "2.11")])] ++ bodyField body), 0)
  else
    let _ := apiKey
    (jsonOrStatus resp, 1)

/-- The `events create` handler of part_002 lines 348-361.  `nowSec` stands
for `Math.floor(Date.now() / 1000)`, read only when `--created-at` is falsy;
`metaOracle` is the `JSON.parse` outcome of a truthy `--metadata` flag, with
the handler's own catch substituting the empty object (it never throws). -/
def intercomEventsCreate (apiKey : String) (args : JsObj) (nowSec : Int)
    (metaOracle : List (String × Json)) (dryRun : Bool) (resp : HttpResp) : Json × Nat :=
  if ¬ jsTruthy (jsGet args "name") ∨ ¬ jsTruthy (jsGet args "user-id") then
    (errJson "--name and --user-id required", 0)
  else
    let body : List (String × Json) :=
      [("event_name", jsValToJson (flagVal args "name")),
       ("user_id", jsValToJson (flagVal args "user-id")),
       ("created_at", if jsTruthy (jsGet args "created-at") then
          Json.num (JsNumber.numberFrom (flagVal args "created-at"))
        else Json.num (JsNumber.ofInt nowSec))]
    let body := if jsTruthy (jsGet args "metadata") then
      objSet body "metadata" (Json.obj metaOracle) else body
    intercomApi apiKey dryRun resp "POST" "/events" (some (Json.obj body))

/-! ## Google Search Console (src/unnamed/part_005): clock-derived defaults -/

def gscBase : String := "https://searchconsole.googleapis.com"

/-- Percent-encoding of one byte under `encodeURIComponent` (unreserved
marks stay literal). -/
def encodeURIByte (b : Nat) : List Char :=
  if (48 ≤ b ∧ b ≤ 57) ∨ (65 ≤ b ∧ b ≤ 90) ∨ (97 ≤ b ∧ b ≤ 122) ∨
      b = 45 ∨ b = 95 ∨ b = 46 ∨ b = 33 ∨ b = 126 ∨ b = 42 ∨ b = 39 ∨ b = 40 ∨ b = 41 then
    [Char.ofNat b]
  else ['%', hexDigit (b / 16), hexDigit (b % 16)]

/-- JS `encodeURIComponent`. -/
def encodeURIComponent (s : String) : String :=
  String.mk ((s.data.map utf8Units).flatten.map encodeURIByte).flatten

/-- The `api` function of part_005 lines 11-29. -/
def gscApi (token : String) (dryRun : Bool) (resp : HttpResp)
    (method path : String) (body : Option Json) : Json × Nat :=
  if dryRun then
    (Json.obj ([("_dry_run", Json.bool true), ("method", Json.str method),
      ("url", Json.str (gscBase ++ path)),
      ("headers", Json.obj [("Authorization", Json.str "***"),
        ("Content-Type", Json.str "application/json")])] ++ bodyField body), 0)
  else
    let _ := token
    (jsonOrStatus resp, 1)

/-- The `search` command of part_005 lines 69-100.  `defStart` and `defEnd`
stand for `getDefaultDates()` (a 28-day window ending three days before the
current clock reading), used only when the respective date flag is falsy;
`rowLimit` is `parseInt(args.limit || '100', 10)`. -/
def gscSearch (token : String) (args : JsObj) (sub : Option String)
    (defStart defEnd : String) (dryRun : Bool) (resp : HttpResp) : Json × Nat :=
  if ¬ jsTruthy (jsGet args "site-url") then
    (errJson "--site-url is required for search commands", 0)
  else
    let enc := encodeURIComponent (flagStr args "site-url")
    let body : List (String × Json) :=
      [("startDate", if jsTruthy (jsGet args "start-date") then
          jsValToJson (flagVal args "start-date") else Json.str defStart),
       ("endDate", if jsTruthy (jsGet args "end-date") then
          jsValToJson (flagVal args "end-date") else Json.str defEnd),
       ("rowLimit", Json.num (JsNumber.parseIntFrom (flagOr args "limit" "100")))]
    match sub with
    | some "query" =>
      gscApi token dryRun resp "POST"
        ("/webmasters/v3/sites/" ++ enc ++ "/searchAnalytics/query")
        (some (Json.obj (objSet body "dimensions" (Json.arr [Json.str "query"]))))
    | some "pages" =>
      gscApi token dryRun resp "POST"
        ("/webmasters/v3/sites/" ++ enc ++ "/searchAnalytics/query")
        (some (Json.obj (objSet body "dimensions" (Json.arr [Json.str "page"]))))
    | some "countries" =>
      gscApi token dryRun resp "POST"
        ("/webmasters/v3/sites/" ++ enc ++ "/searchAnalytics/query")
        (some (Json.obj (objSet body "dimensions"
          (Json.arr [Json.str "country", Json.str "query"]))))
    | _ => (errJson "Unknown search subcommand. Use: query, pages, countries", 0)

/-! ## Dry-run header maps of every tool

One entry per dry-run descriptor construction site in the repository.  The
maps built by spread-and-override (`{ ...headers, Authorization: '***' }`)
are recorded after the override, which replaces the only credential-bearing
entry; `hdrSet_klaviyoHeaders_masked` below proves that reduction for the
representative spread case embedded as a function of the secret. -/

/-- Every header value that may occur in a dry-run descriptor of any tool:
the mask token and the fixed content-negotiation and version constants. -/
def dryRunFixedValues : List String :=
  ["***", "application/json", "application/vnd.api+json",
   "application/x-www-form-urlencoded", "2024-10-15", "2.11"]

/-- Header names that carry a credential in some tool's live request. -/
def credentialHeaderKeys : List String :=
  ["Authorization", "apikey", "Api-Key", "Api-Secret", "Api-Token",
   "Access-Token", "X-API-Key", "x-api-key", "api-key", "developer-token",
   "X-Postmark-Account-Token", "X-Postmark-Server-Token"]

/-- Dry-run header maps, one per construction site (file and line of the
`_dry_run` return).  Sites whose headers depend on a branch contribute one
entry per branch. -/
def allDryRunHeaderMaps : List Headers :=
  [ -- ahrefs.js:13
    [("Authorization", "***"), ("Content-Type", "application/json")],
    -- beehiiv.js:13
    [("Authorization", "***"), ("Content-Type", "application/json"), ("Accept", "application/json")],
    -- clearbit.js:12
    [("Authorization", "***"), ("Content-Type", "application/json"), ("Accept", "application/json")],
    -- dataforseo.js:16
    [("Authorization", "***"), ("Content-Type", "application/json")],
    -- demio.js:19
    [("Api-Key", "***"), ("Api-Secret", "***"), ("Content-Type", "application/json"), ("Accept", "application/json")],
    -- demio.js:165
    [("Authorization", "***"), ("Content-Type", "application/json"), ("Accept", "application/json")],
    -- google-ads.js:15
    [("Authorization", "***"), ("developer-token", "***"), ("Content-Type", "application/json")],
    -- hotjar.js:31
    [("Authorization", "***"), ("Content-Type", "application/json"), ("Accept", "application/json")],
    -- hotjar.js:184 (appended segment tool, trackApi)
    [("Authorization", "***"), ("Content-Type", "application/json")],
    -- hotjar.js:208 (appended segment tool, profileApi)
    [("Authorization", "***"), ("Content-Type", "application/json")],
    -- kit.js:44 (spread of opts.headers, which holds only Content-Type)
    [("Content-Type", "application/json")],
    -- klaviyo.js:20 (spread-and-override of the live headers)
    [("Authorization", "***"), ("Content-Type", "application/json"), ("Accept", "application/json"), ("revision", "2024-10-15")],
    -- linkedin-ads.js:17
    [("Authorization", "***"), ("Content-Type", "application/json")],
    -- livestorm.js:18
    [("Authorization", "***"), ("Content-Type", "application/vnd.api+json"), ("Accept", "application/vnd.api+json")],
    -- livestorm.js:317
    [("Authorization", "***"), ("Content-Type", "application/json")],
    -- livestorm.js:340
    [("Authorization", "***"), ("Content-Type", "application/json")],
    -- mention-me.js:17
    [("Authorization", "***"), ("Content-Type", "application/json")],
    -- meta-ads.js:23, without body
    [("Authorization", "***")],
    -- meta-ads.js:23, with body
    [("Authorization", "***"), ("Content-Type", "application/json")],
    -- onesignal.js:24
    [("Authorization", "***"), ("Content-Type", "application/json"), ("Accept", "application/json")],
    -- onesignal.js:253
    [("x-api-key", "***"), ("Content-Type", "application/json"), ("Accept", "application/json")],
    -- plausible.js:13
    [("Authorization", "***"), ("Content-Type", "application/json"), ("Accept", "application/json")],
    -- postmark.js:19, account-token branch
    [("Content-Type", "application/json"), ("Accept", "application/json"), ("X-Postmark-Account-Token", "***")],
    -- postmark.js:19, server-token branch
    [("Content-Type", "application/json"), ("Accept", "application/json"), ("X-Postmark-Server-Token", "***")],
    -- resend.js:13
    [("Authorization", "***"), ("Content-Type", "application/json")],
    -- savvycal.js:13
    [("Authorization", "***"), ("Content-Type", "application/json"), ("Accept", "application/json")],
    -- semrush.js:34 (empty header map; the key is masked in the URL)
    [],
    -- sendgrid.js:13
    [("Authorization", "***"), ("Content-Type", "application/json")],
    -- tiktok-ads.js:14
    [("Access-Token", "***"), ("Content-Type", "application/json")],
    -- trustpilot.js:42, bearer branch
    [("Content-Type", "application/json"), ("Accept", "application/json"), ("Authorization", "***")],
    -- trustpilot.js:42, apikey branch
    [("Content-Type", "application/json"), ("Accept", "application/json"), ("apikey", "***")],
    -- trustpilot.js:291 (invitation ingestion path)
    [("Content-Type", "application/json")],
    -- trustpilot.js:312
    [("Authorization", "***"), ("Content-Type", "application/json")],
    -- typeform.js:13
    [("Authorization", "***"), ("Content-Type", "application/json"), ("Accept", "application/json")],
    -- wistia.js:14
    [("Authorization", "***"), ("Content-Type", "application/json"), ("Accept", "application/json")],
    -- zapier.js:13
    [("X-API-Key", "***"), ("Content-Type", "application/json")],
    -- zapier.js:33 (webhook POST, no credential header)
    [("Content-Type", "application/json")],
    -- zapier.js:173
    [("Authorization", "***"), ("Content-Type", "application/json"), ("Accept", "application/json")],
    -- part_000:13
    [("Authorization", "***"), ("Content-Type", "application/json"), ("Accept", "application/json")],
    -- part_000:271 (spread-and-override)
    [("Authorization", "***"), ("Content-Type", "application/json"), ("Accept", "application/json")],
    -- part_001:20
    [("Api-Token", "***"), ("Content-Type", "application/json"), ("Accept", "application/json")],
    -- part_002:13
    [("Authorization", "***"), ("Content-Type", "application/json"), ("Accept", "application/json"), ("Intercom-Version", "2.11")],
    -- part_002:412
    [("Authorization", "***"), ("Content-Type", "application/vnd.api+json"), ("Accept", "application/vnd.api+json")],
    -- part_003:13
    [("Authorization", "***"), ("Content-Type", "application/json")],
    -- part_004:15
    [("Authorization", "***"), ("Content-Type", "application/json"), ("Accept", "application/json")],
    -- part_005:13
    [("Authorization", "***"), ("Content-Type", "application/json")],
    -- part_006:13
    [("api-key", "***"), ("Content-Type", "application/json"), ("Accept", "application/json")],
    -- part_007:13
    [("Authorization", "***"), ("Content-Type", "application/json")],
    -- part_008:20 (spread-and-override), GET branch
    [("Authorization", "***"), ("Accept", "application/json")],
    -- part_008:20 (spread-and-override), body branch adds the form Content-Type
    [("Authorization", "***"), ("Accept", "application/json"), ("Content-Type", "application/x-www-form-urlencoded")],
    -- part_008:37
    [("Authorization", "***"), ("Content-Type", "application/json"), ("Accept", "application/json")],
    -- part_008:165
    [("Authorization", "***"), ("Content-Type", "application/x-www-form-urlencoded"), ("Accept", "application/json")],
    -- part_008:211
    [("Authorization", "***"), ("Content-Type", "application/x-www-form-urlencoded"), ("Accept", "application/json")],
    -- part_009:15
    [("Authorization", "***"), ("Content-Type", "application/json")],
    -- part_009:36 (GA4 collect: api_secret masked inside the URL)
    [("Content-Type", "application/json")],
    -- part_010:18 (mixpanel ingestion; no credential header at all)
    [("Content-Type", "application/json")],
    -- part_010:44 (spread-and-override)
    [("Authorization", "***"), ("Content-Type", "application/json")],
    -- part_010:68 (spread-and-override)
    [("Authorization", "***"), ("Content-Type", "application/json")],
    -- part_011:19 (spread-and-override)
    [("Authorization", "***"), ("Content-Type", "application/json")],
    -- part_012:13
    [("Authorization", "***"), ("Content-Type", "application/json")],
    -- part_013:16
    [("Authorization", "***"), ("x-api-key", "***"), ("Content-Type", "application/json")]]

end Marketing

namespace Marketing

/-! ## Projections and data used by the theorems -/

/-- A network oracle whose body is empty non-JSON text with status 200. -/
def respNone : HttpResp := ⟨200, "", none⟩

/-- Fetch count of a `main` result (a thrown path in klaviyo's `main`
precedes its one `api` call, so the error case has made no fetch). -/
def fetchesOf : Except String (Json × Nat) → Nat
  | Except.ok p => p.2
  | Except.error _ => 0

/-- The command and subcommand a klaviyo-shaped process extracts from its
token list at module scope, when it gets that far. -/
def klaviyoCmdSub (tokens : List String) : Option (Option String × Option String) :=
  match parseArgs tokens with
  | Except.error _ => none
  | Except.ok args =>
    match destructUnderscore (jsGet args "_") with
    | Except.error _ => none
    | Except.ok pos => some (pos.get? 0, pos.get? 1)

/-- Head of a JSON array. -/
def firstElem : Json → Option Json
  | Json.arr (x :: _) => some x
  | _ => none

/-- The `attributes.time` field inside the body of a printed dry-run events
descriptor. -/
def timeOfRun (r : ProcOutcome × Nat) : Option Json :=
  match r.1 with
  | ProcOutcome.printed j =>
    (((j.lookup "body").bind (fun b => b.lookup "data")).bind
      (fun d => d.lookup "attributes")).bind (fun a => a.lookup "time")
  | _ => none

/-- The `properties.token` field inside the body of a mixpanel `/track`
descriptor. -/
def trackBodyToken (d : Json) : Option Json :=
  (((d.lookup "body").bind firstElem).bind (fun o => o.lookup "properties")).bind
    (fun p => p.lookup "token")

/-- The `$token` field inside the body of a mixpanel `/engage` descriptor. -/
def engageBodyToken (d : Json) : Option Json :=
  ((d.lookup "body").bind firstElem).bind (fun o => o.lookup "$token")

/-- Primary commands of klaviyo's dispatch. -/
def klaviyoCmds : List String :=
  ["profiles", "lists", "events", "campaigns", "flows", "metrics", "segments", "templates"]

/-- Subcommands of each klaviyo primary command. -/
def klaviyoSubsOf : String → List String
  | "profiles" => ["list", "get", "create", "update"]
  | "lists" => ["list", "get", "create", "delete", "add-profiles", "remove-profiles"]
  | "events" => ["list", "get", "create"]
  | "campaigns" => ["list", "get"]
  | "flows" => ["list", "get", "update"]
  | "metrics" => ["list", "get"]
  | "segments" => ["list", "get"]
  | "templates" => ["list", "get"]
  | _ => []

/-- Unknown-subcommand message of each klaviyo primary command. -/
def klaviyoSubErrMsg : String → String
  | "profiles" => "Unknown profiles subcommand. Use: list, get, create, update"
  | "lists" => "Unknown lists subcommand. Use: list, get, create, delete, add-profiles, remove-profiles"
  | "events" => "Unknown events subcommand. Use: list, get, create"
  | "campaigns" => "Unknown campaigns subcommand. Use: list, get"
  | "flows" => "Unknown flows subcommand. Use: list, get, update"
  | "metrics" => "Unknown metrics subcommand. Use: list, get"
  | "segments" => "Unknown segments subcommand. Use: list, get"
  | "templates" => "Unknown templates subcommand. Use: list, get"
  | _ => ""

/-! ## Specification-side pairing rule (for the refinement claims) -/

/-- Result of the pairing rule as the spec describes it: a flag map kept
apart from the positional sequence. -/
structure SpecParse where
  flags : JsObj
  positionals : List String
  deriving DecidableEq, Repr

/-- Modelled from the spec, section 4.1, read literally: a `--` token names a
flag; "if a subsequent token exists and does not itself begin with `--`, it
becomes the flag's string value and both tokens are consumed; otherwise the
flag's value is boolean `true` and only one token is consumed"; any other
token joins the positional sequence.  This is the comparison definition for
the refinement claims, not a translation of the code. -/
def pairingRuleSpecGo : List String → JsObj → List String → SpecParse
  | [], fs, ps => ⟨fs, ps⟩
  | arg :: rest, fs, ps =>
    if startsDashDash arg then
      let key := sliceTwo arg
      match rest with
      | next :: rest2 =>
        if ¬ startsDashDash next then
          pairingRuleSpecGo rest2 (assocSet fs key (JsVal.str next)) ps
        else
          pairingRuleSpecGo (next :: rest2) (assocSet fs key (JsVal.bool true)) ps
      | [] => ⟨assocSet fs key (JsVal.bool true), ps⟩
    else pairingRuleSpecGo rest fs (ps ++ [arg])

/-- The literal pairing rule of section 4.1 run from empty state. -/
def pairingRuleSpec (ts : List String) : SpecParse := pairingRuleSpecGo ts [] []

/-- The pairing rule amended to match the code: a following token becomes
the flag's value only when it exists, is not empty, and does not begin with
`--` (an empty token is falsy in the source's guard, so it is skipped as a
value and later lands in the positional sequence). -/
def pairingRuleAmendedGo : List String → JsObj → List String → SpecParse
  | [], fs, ps => ⟨fs, ps⟩
  | arg :: rest, fs, ps =>
    if startsDashDash arg then
      let key := sliceTwo arg
      match rest with
      | next :: rest2 =>
        if next ≠ "" ∧ ¬ startsDashDash next then
          pairingRuleAmendedGo rest2 (assocSet fs key (JsVal.str next)) ps
        else
          pairingRuleAmendedGo (next :: rest2) (assocSet fs key (JsVal.bool true)) ps
      | [] => ⟨assocSet fs key (JsVal.bool true), ps⟩
    else pairingRuleAmendedGo rest fs (ps ++ [arg])

/-- The amended pairing rule run from empty state. -/
def pairingRuleAmended (ts : List String) : SpecParse := pairingRuleAmendedGo ts [] []

/-! ## Parser lemmas -/

lemma startsDashDash_data {s : String} (h : startsDashDash s = true) :
    ∃ t, s.data = '-' :: '-' :: t := by
  unfold startsDashDash at h
  split at h
  next t heq => exact ⟨t, heq⟩
  next => simp at h

/-- A flag token other than `--k` never has the key `k`. -/
lemma sliceTwo_ne {arg : String} (k : String) (h1 : startsDashDash arg = true)
    (h2 : arg ≠ String.mk ('-' :: '-' :: k.data)) : sliceTwo arg ≠ k := by
  obtain ⟨t, ht⟩ := startsDashDash_data h1
  intro hcon
  apply h2
  have hdrop : sliceTwo arg = String.mk (arg.data.drop 2) := rfl
  rw [hdrop, ht] at hcon
  have ht2 : t = k.data := by simpa using congrArg String.data hcon
  exact String.ext (by rw [ht, ht2])

lemma assocSet_cons_of_ne {k2 : String} (v2 : JsVal) (o : JsObj) {k : String}
    (h : k2 ≠ k) (v : JsVal) :
    assocSet ((k2, v2) :: o) k v = (k2, v2) :: assocSet o k v := by
  simp [assocSet, h]

/-- Assignment at any key other than `__proto__` is an own-property write. -/
lemma jsSet_eq_assocSet {k : String} (h : k ≠ "__proto__") (o : JsObj) (v : JsVal) :
    jsSet o k v = assocSet o k v := by
  simp [jsSet, h]

/-- A store at any flag key (never `_`) keeps the positionals entry at the
head of the object, whether it is an own-property write or the `__proto__`
no-op. -/
lemma jsSet_keeps_underscore_head (fs : JsObj) (ps : List String) {key : String}
    (h : key ≠ "_") (v : JsVal) :
    ∃ fs2, jsSet (("_", JsVal.arr ps) :: fs) key v = ("_", JsVal.arr ps) :: fs2 := by
  by_cases hp : key = "__proto__"
  · exact ⟨fs, by simp [jsSet, hp]⟩
  · exact ⟨assocSet fs key v,
      by rw [jsSet_eq_assocSet hp, assocSet_cons_of_ne _ _ (fun hc => h hc.symm) _]⟩

/-- One-step unfolding of the parser loop on a nonempty token list. -/
lemma parseArgsGo_cons (arg : String) (rest : List String) (res : JsObj) :
    parseArgsGo (arg :: rest) res =
      if startsDashDash arg then
        (match rest with
          | next :: rest2 =>
            if next ≠ "" ∧ ¬ startsDashDash next then
              parseArgsGo rest2 (jsSet res (sliceTwo arg) (JsVal.str next))
            else parseArgsGo (next :: rest2) (jsSet res (sliceTwo arg) (JsVal.bool true))
          | [] => Except.ok (jsSet res (sliceTwo arg) (JsVal.bool true)))
      else
        match jsGet res "_" with
        | some (JsVal.arr xs) => parseArgsGo rest (jsSet res "_" (JsVal.arr (xs ++ [arg])))
        | _ => Except.error "result._.push is not a function" := by
  rw [parseArgsGo.eq_2]

/-- One-step unfolding of the amended pairing rule on a nonempty list. -/
lemma pairingRuleAmendedGo_cons (arg : String) (rest : List String) (fs : JsObj)
    (ps : List String) :
    pairingRuleAmendedGo (arg :: rest) fs ps =
      if startsDashDash arg then
        (match rest with
          | next :: rest2 =>
            if next ≠ "" ∧ ¬ startsDashDash next then
              pairingRuleAmendedGo rest2 (assocSet fs (sliceTwo arg) (JsVal.str next)) ps
            else pairingRuleAmendedGo (next :: rest2) (assocSet fs (sliceTwo arg) (JsVal.bool true)) ps
          | [] => ⟨assocSet fs (sliceTwo arg) (JsVal.bool true), ps⟩)
      else pairingRuleAmendedGo rest fs (ps ++ [arg]) := by
  rw [pairingRuleAmendedGo.eq_2]

/-- Totality: on every state the parser loop reaches when no `--_` token
occurs, the `_` entry stays the positional array at the head of the object
(a `--__proto__` store is a silent no-op and touches nothing), so the loop
never throws. -/
lemma parseArgsGo_total :
    ∀ (ts : List String) (fs0 : JsObj) (ps : List String), "--_" ∉ ts →
      ∀ fs, ∃ o, parseArgsGo ts (("_", JsVal.arr ps) :: fs) = Except.ok o := by
  intro ts _fs0 ps
  induction ts, _fs0, ps using pairingRuleAmendedGo.induct with
  | case1 fs0 ps =>
    intro _ fs
    exact ⟨_, rfl⟩
  | case2 arg fs0 ps hflag key next rest2 hval ih =>
    intro hmem fs
    have harg : arg ≠ "--_" := fun hc => hmem (hc ▸ List.mem_cons_self arg _)
    have hkey : sliceTwo arg ≠ "_" := sliceTwo_ne "_" hflag (by
      have e : String.mk ('-' :: '-' :: "_".data) = "--_" := by decide
      rw [e]; exact harg)
    have hm : "--_" ∉ rest2 := fun hc =>
      hmem (List.mem_cons_of_mem arg (List.mem_cons_of_mem next hc))
    obtain ⟨fs2, heq⟩ := jsSet_keeps_underscore_head fs ps hkey (JsVal.str next)
    rw [parseArgsGo_cons, if_pos hflag]
    dsimp only
    rw [if_pos hval, heq]
    exact ih hm fs2
  | case3 arg fs0 ps hflag key next rest2 hval ih =>
    intro hmem fs
    have harg : arg ≠ "--_" := fun hc => hmem (hc ▸ List.mem_cons_self arg _)
    have hkey : sliceTwo arg ≠ "_" := sliceTwo_ne "_" hflag (by
      have e : String.mk ('-' :: '-' :: "_".data) = "--_" := by decide
      rw [e]; exact harg)
    have hm : "--_" ∉ next :: rest2 := fun hc => hmem (List.mem_cons_of_mem arg hc)
    obtain ⟨fs2, heq⟩ := jsSet_keeps_underscore_head fs ps hkey (JsVal.bool true)
    rw [parseArgsGo_cons, if_pos hflag]
    dsimp only
    rw [if_neg hval, heq]
    exact ih hm fs2
  | case4 arg fs0 ps hflag =>
    intro _ fs
    rw [parseArgsGo_cons, if_pos hflag]
    exact ⟨_, rfl⟩
  | case5 arg rest fs0 ps hflag ih =>
    intro hmem fs
    have hm : "--_" ∉ rest := fun hc => hmem (List.mem_cons_of_mem arg hc)
    rw [parseArgsGo_cons, if_neg hflag]
    have hget : jsGet (("_", JsVal.arr ps) :: fs) "_" = some (JsVal.arr ps) := by
      simp [jsGet]
    rw [hget]
    dsimp only
    have hset : jsSet (("_", JsVal.arr ps) :: fs) "_" (JsVal.arr (ps ++ [arg])) =
        ("_", JsVal.arr (ps ++ [arg])) :: fs := by
      simp [jsSet, assocSet]
    rw [hset]
    exact ih hm fs

/-- On every state the parser loop reaches when neither `--_` nor
`--__proto__` occurs, the loop agrees with the amended pairing rule: the `_`
entry stays the positional array at the head and every flag store is an
own-property write. -/
lemma parseArgsGo_agrees :
    ∀ (ts : List String) (fs : JsObj) (ps : List String),
      "--_" ∉ ts → "--__proto__" ∉ ts →
      parseArgsGo ts (("_", JsVal.arr ps) :: fs) =
        Except.ok (("_", JsVal.arr (pairingRuleAmendedGo ts fs ps).positionals) ::
          (pairingRuleAmendedGo ts fs ps).flags) := by
  intro ts fs ps
  induction ts, fs, ps using pairingRuleAmendedGo.induct with
  | case1 fs ps =>
    intro _ _
    rfl
  | case2 arg fs ps hflag key next rest2 hval ih =>
    intro hmem hmemp
    have harg : arg ≠ "--_" := fun hc => hmem (hc ▸ List.mem_cons_self arg _)
    have hargp : arg ≠ "--__proto__" := fun hc => hmemp (hc ▸ List.mem_cons_self arg _)
    have hkey : sliceTwo arg ≠ "_" := sliceTwo_ne "_" hflag (by
      have e : String.mk ('-' :: '-' :: "_".data) = "--_" := by decide
      rw [e]; exact harg)
    have hkeyp : sliceTwo arg ≠ "__proto__" := sliceTwo_ne "__proto__" hflag (by
      have e : String.mk ('-' :: '-' :: "__proto__".data) = "--__proto__" := by decide
      rw [e]; exact hargp)
    have hm : "--_" ∉ rest2 := fun hc =>
      hmem (List.mem_cons_of_mem arg (List.mem_cons_of_mem next hc))
    have hmp : "--__proto__" ∉ rest2 := fun hc =>
      hmemp (List.mem_cons_of_mem arg (List.mem_cons_of_mem next hc))
    rw [parseArgsGo_cons]
    rw [pairingRuleAmendedGo_cons]
    rw [if_pos hflag, if_pos hflag]
    dsimp only
    rw [if_pos hval, if_pos hval]
    rw [jsSet_eq_assocSet hkeyp]
    rw [assocSet_cons_of_ne _ _ (fun hc => hkey hc.symm) _]
    exact ih hm hmp
  | case3 arg fs ps hflag key next rest2 hval ih =>
    intro hmem hmemp
    have harg : arg ≠ "--_" := fun hc => hmem (hc ▸ List.mem_cons_self arg _)
    have hargp : arg ≠ "--__proto__" := fun hc => hmemp (hc ▸ List.mem_cons_self arg _)
    have hkey : sliceTwo arg ≠ "_" := sliceTwo_ne "_" hflag (by
      have e : String.mk ('-' :: '-' :: "_".data) = "--_" := by decide
      rw [e]; exact harg)
    have hkeyp : sliceTwo arg ≠ "__proto__" := sliceTwo_ne "__proto__" hflag (by
      have e : String.mk ('-' :: '-' :: "__proto__".data) = "--__proto__" := by decide
      rw [e]; exact hargp)
    have hm : "--_" ∉ next :: rest2 := fun hc => hmem (List.mem_cons_of_mem arg hc)
    have hmp : "--__proto__" ∉ next :: rest2 := fun hc => hmemp (List.mem_cons_of_mem arg hc)
    rw [parseArgsGo_cons]
    rw [pairingRuleAmendedGo_cons]
    rw [if_pos hflag, if_pos hflag]
    dsimp only
    rw [if_neg hval, if_neg hval]
    rw [jsSet_eq_assocSet hkeyp]
    rw [assocSet_cons_of_ne _ _ (fun hc => hkey hc.symm) _]
    exact ih hm hmp
  | case4 arg fs ps hflag =>
    intro hmem hmemp
    have harg : arg ≠ "--_" := fun hc => hmem (hc ▸ List.mem_cons_self arg _)
    have hargp : arg ≠ "--__proto__" := fun hc => hmemp (hc ▸ List.mem_cons_self arg _)
    have hkey : sliceTwo arg ≠ "_" := sliceTwo_ne "_" hflag (by
      have e : String.mk ('-' :: '-' :: "_".data) = "--_" := by decide
      rw [e]; exact harg)
    have hkeyp : sliceTwo arg ≠ "__proto__" := sliceTwo_ne "__proto__" hflag (by
      have e : String.mk ('-' :: '-' :: "__proto__".data) = "--__proto__" := by decide
      rw [e]; exact hargp)
    rw [parseArgsGo_cons]
    rw [pairingRuleAmendedGo_cons]
    rw [if_pos hflag, if_pos hflag]
    dsimp only
    rw [jsSet_eq_assocSet hkeyp]
    rw [assocSet_cons_of_ne _ _ (fun hc => hkey hc.symm) _]
  | case5 arg rest fs ps hflag ih =>
    intro hmem hmemp
    have hm : "--_" ∉ rest := fun hc => hmem (List.mem_cons_of_mem arg hc)
    have hmp : "--__proto__" ∉ rest := fun hc => hmemp (List.mem_cons_of_mem arg hc)
    rw [parseArgsGo_cons]
    rw [pairingRuleAmendedGo_cons]
    rw [if_neg hflag, if_neg hflag]
    have hget : jsGet (("_", JsVal.arr ps) :: fs) "_" = some (JsVal.arr ps) := by
      simp [jsGet]
    rw [hget]
    dsimp only
    have hset : jsSet (("_", JsVal.arr ps) :: fs) "_" (JsVal.arr (ps ++ [arg])) =
        ("_", JsVal.arr (ps ++ [arg])) :: fs := by
      simp [jsSet, assocSet]
    rw [hset]
    exact ih hm hmp

end Marketing

namespace Marketing

/-! ## Claim C1: totality of the argument parser -/

/-- C1 counterexample: the parser is not total.  The token `--_` stores the
following value into `result._`, overwriting the positionals array, and the
next positional token's `result._.push` throws a `TypeError`. -/
theorem parseArgs_crashes_on_underscore_flag :
    parseArgs ["--_", "x", "y"] = Except.error "result._.push is not a function" := rfl

/-- C1 amended: for every token sequence that does not contain the flag
token `--_`, `parseArgs` is deterministic (it is a function) and total —
it produces a result and has no error path.  (A `--__proto__` token is
consumed like any flag but its store is a silent no-op, which never
throws.) -/
theorem parseArgs_total_without_underscore_flag (ts : List String)
    (h : "--_" ∉ ts) : ∃ o, parseArgs ts = Except.ok o :=
  parseArgsGo_total ts [] [] h []

/-- C1 witness: the amended totality theorem applied at a concrete input. -/
theorem parseArgs_total_without_underscore_flag_witness :
    "--_" ∉ ["--a", "x"] ∧ ∃ o, parseArgs ["--a", "x"] = Except.ok o :=
  ⟨by decide, parseArgs_total_without_underscore_flag ["--a", "x"] (by decide)⟩

/-! ## Claim C3: the pairing rule -/

/-- C3 counterexample: the code deviates from the literal section 4.1 rule.
On `["--a", ""]` the subsequent token exists and does not begin with `--`,
so the spec pairs `a` with `""`; the code's truthiness guard skips the empty
token, making `a` boolean `true` and pushing `""` onto the positionals.  On
`["--__proto__", "x"]` the spec pairs `__proto__` with `"x"` and consumes
both tokens; the code consumes both but stores nothing, because the
assignment `result['__proto__'] = 'x'` invokes the inherited
`Object.prototype.__proto__` setter, a no-op for a string value.  On
`["--_", "p", "q"]` the code throws instead of producing any pairing. -/
theorem parseArgs_pairing_deviates_from_spec :
    (pairingRuleSpec ["--a", ""]).flags = [("a", JsVal.str "")] ∧
    parseArgs ["--a", ""] = Except.ok [("_", JsVal.arr [""]), ("a", JsVal.bool true)] ∧
    (pairingRuleSpec ["--__proto__", "x"]).flags = [("__proto__", JsVal.str "x")] ∧
    parseArgs ["--__proto__", "x"] = Except.ok [("_", JsVal.arr [])] ∧
    parseArgs ["--_", "p", "q"] = Except.error "result._.push is not a function" :=
  ⟨rfl, rfl, rfl, rfl, rfl⟩

/-- C3 amended: on every token sequence without the flag tokens `--_` and
`--__proto__`, the parser implements the amended pairing rule — a following
token becomes the flag's string value only when it exists, is non-empty, and
does not begin with `--`; otherwise the flag is boolean `true` and the
(possibly empty) following token is reconsidered.  A `--_` token corrupts
the positionals slot and a `--__proto__` store silently vanishes into the
inherited setter, so those two tokens are excluded.  In particular
`["--a", "--b", "x"]` parses to `a = true`, `b = "x"`. -/
theorem parseArgs_implements_amended_pairing (ts : List String)
    (h1 : "--_" ∉ ts) (h2 : "--__proto__" ∉ ts) :
    parseArgs ts =
      Except.ok (("_", JsVal.arr (pairingRuleAmended ts).positionals) ::
        (pairingRuleAmended ts).flags) ∧
    parseArgs ["--a", "--b", "x"] =
      Except.ok [("_", JsVal.arr []), ("a", JsVal.bool true), ("b", JsVal.str "x")] :=
  ⟨parseArgsGo_agrees ts [] [] h1 h2, rfl⟩

/-- C3 witness: the amended pairing theorem applied at the spec's own
example. -/
theorem parseArgs_implements_amended_pairing_witness :
    ("--_" ∉ ["--a", "--b", "x"] ∧ "--__proto__" ∉ ["--a", "--b", "x"]) ∧
    (parseArgs ["--a", "--b", "x"] =
      Except.ok (("_", JsVal.arr (pairingRuleAmended ["--a", "--b", "x"]).positionals) ::
        (pairingRuleAmended ["--a", "--b", "x"]).flags) ∧
    parseArgs ["--a", "--b", "x"] =
      Except.ok [("_", JsVal.arr []), ("a", JsVal.bool true), ("b", JsVal.str "x")]) :=
  ⟨⟨by decide, by decide⟩,
    parseArgs_implements_amended_pairing ["--a", "--b", "x"] (by decide) (by decide)⟩

end Marketing

namespace Marketing

/-! ## Claim C4: dry-run header masking -/

/-- Every value in every dry-run header map is the mask or a fixed constant. -/
lemma dryrun_header_values_fixed :
    ∀ hs ∈ allDryRunHeaderMaps, ∀ kv ∈ hs, kv.2 ∈ dryRunFixedValues := by
  decide

/-- C4: in every dry-run header map of every tool, no header value equals a
secret that differs from the six fixed constants, every credential-bearing
header name maps to the mask token `***`, and the spread-built klaviyo map
reduces to its constant entry for every key while the dry-run executors make
no fetch. -/
theorem dryrun_headers_never_hold_secret (s : String) (h : s ∉ dryRunFixedValues) :
    (∀ hs ∈ allDryRunHeaderMaps, ∀ kv ∈ hs, kv.2 ≠ s) ∧
    (∀ hs ∈ allDryRunHeaderMaps, ∀ kv ∈ hs, kv.1 ∈ credentialHeaderKeys → kv.2 = "***") ∧
    (∀ apiKey, hdrSet (klaviyoHeaders apiKey) "Authorization" "***" =
      [("Authorization", "***"), ("Content-Type", "application/json"),
       ("Accept", "application/json"), ("revision", "2024-10-15")]) ∧
    (∀ apiKey resp method path body,
      (klaviyoApi apiKey true resp method path body).1.lookup "headers" =
        some (headersJson [("Authorization", "***"), ("Content-Type", "application/json"),
          ("Accept", "application/json"), ("revision", "2024-10-15")]) ∧
      (klaviyoApi apiKey true resp method path body).2 = 0) ∧
    (∀ apiKey resp params, (semrushApi apiKey true resp params).2 = 0) ∧
    (∀ cache t resp method path, (hotjarApi true cache t resp method path).2 = 0) ∧
    (∀ resp method path body, (tiktokApi true resp method path body).2 = 0) ∧
    (∀ resp method path body, (mixIngestApi true resp method path body).2 = 0) ∧
    (∀ apiKey secret bearer cache tresp resp method path body,
      (tpApi apiKey secret true bearer cache tresp resp method path body).2.2 = 0) := by
  refine ⟨?_, by decide, fun apiKey => rfl, fun apiKey resp method path body => ⟨rfl, rfl⟩,
    fun apiKey resp params => rfl, fun cache t resp method path => rfl,
    fun resp method path body => rfl, fun resp method path body => rfl,
    fun apiKey secret bearer cache tresp resp method path body => ?_⟩
  · intro hs hmem kv hkv heq
    exact h (heq ▸ dryrun_header_values_fixed hs hmem kv hkv)
  · cases bearer <;> rfl

/-- C4 witness: the masking theorem applied at a concrete secret. -/
theorem dryrun_headers_never_hold_secret_witness :
    "sk-live-secret-123" ∉ dryRunFixedValues ∧
    ∀ hs ∈ allDryRunHeaderMaps, ∀ kv ∈ hs, kv.2 ≠ "sk-live-secret-123" :=
  ⟨by decide, (dryrun_headers_never_hold_secret "sk-live-secret-123" (by decide)).1⟩

/-! ## Claim C7: credential gate before parsing and network -/

/-- C7: for each embedded tool, a failing credential gate yields the
single-line stderr JSON error outcome with exit code 1 and zero fetches, for
every token sequence whatsoever — so before any argument parsing (even one
that would crash) and before any network access; the last conjunct states
the same for the shared file layout with an arbitrary dispatch body. -/
theorem credential_gate_runs_first :
    (∀ tokens now resp,
      klaviyoRun none tokens now resp =
        (ProcOutcome.credError "KLAVIYO_API_KEY environment variable required", 0) ∧
      klaviyoRun (some "") tokens now resp =
        (ProcOutcome.credError "KLAVIYO_API_KEY environment variable required", 0)) ∧
    (∀ cid csecret tokens t resp, (envFalsy cid || envFalsy csecret) = true →
      hotjarRun cid csecret tokens t resp =
        (ProcOutcome.credError
          "HOTJAR_CLIENT_ID and HOTJAR_CLIENT_SECRET environment variables required", 0)) ∧
    (∀ env tokens resp, envFalsy env = true →
      semrushRun env tokens resp =
        (ProcOutcome.credError "SEMRUSH_API_KEY environment variable required", 0)) ∧
    (∀ token apiKey tokens mainRun, mixpanelGateFails token apiKey = true →
      gatedRun (mixpanelGateFails token apiKey) mixpanelGateMsg tokens mainRun =
        (ProcOutcome.credError mixpanelGateMsg, 0)) ∧
    (∀ (gateMsg : String) (tokens : List String) mainRun,
      gatedRun true gateMsg tokens mainRun = (ProcOutcome.credError gateMsg, 0)) := by
  refine ⟨fun tokens now resp => ⟨rfl, rfl⟩, ?_, ?_, ?_, fun gateMsg tokens mainRun => rfl⟩
  · intro cid csecret tokens t resp h
    simp [hotjarRun, gatedRun, h]
  · intro env tokens resp h
    simp [semrushRun, gatedRun, h]
  · intro token apiKey tokens mainRun h
    simp [gatedRun, h]

/-- C7 witness: the gate theorem applied with missing credentials and a
token sequence whose parse would crash, showing the gate fires first. -/
theorem credential_gate_runs_first_witness :
    (envFalsy (none : Option String) || envFalsy (some "s")) = true ∧
    hotjarRun none (some "s") ["--_", "x", "y"] ⟨none, "m"⟩ respNone =
      (ProcOutcome.credError
        "HOTJAR_CLIENT_ID and HOTJAR_CLIENT_SECRET environment variables required", 0) :=
  ⟨by decide, (credential_gate_runs_first).2.1 none (some "s") ["--_", "x", "y"]
    ⟨none, "m"⟩ respNone (by decide)⟩

end Marketing

namespace Marketing

/-! ## Object lookup lemmas -/

lemma lookupGo_objSet_self (o : List (String × Json)) (k : String) (v : Json) :
    Json.lookup.go (objSet o k v) k = some v := by
  induction o with
  | nil => simp [objSet, Json.lookup.go]
  | cons kv rest ih =>
    obtain ⟨k1, v1⟩ := kv
    by_cases h : k1 = k
    · simp [objSet, h, Json.lookup.go]
    · simp [objSet, h, Json.lookup.go, ih]

lemma lookupGo_objSet_ne (o : List (String × Json)) {k2 k : String} (h : k2 ≠ k)
    (v : Json) : Json.lookup.go (objSet o k2 v) k = Json.lookup.go o k := by
  induction o with
  | nil => simp [objSet, Json.lookup.go, h]
  | cons kv rest ih =>
    obtain ⟨k1, v1⟩ := kv
    by_cases h2 : k1 = k2
    · subst h2
      simp [objSet, Json.lookup.go, h]
    · simp [objSet, h2, Json.lookup.go, ih]

/-! ## Claim C10: mixpanel ingestion carries the raw token in the body -/

/-- C10: for any token, parsed properties, and flags passing the guards, the
dry-run descriptor of `track event` carries the real `MIXPANEL_TOKEN`
unmasked at `properties.token`, the `profiles set` descriptor carries it at
`$token`, and the ingestion header map is exactly `Content-Type:
application/json` — no header value equals the token, because masking only
ever applies to header values and the ingestion path has no
credential-bearing header. -/
theorem mixpanel_ingestion_body_holds_raw_token (tok : String) (args : JsObj)
    (props : List (String × Json)) (resp : HttpResp)
    (h1 : tok ≠ "") (h2 : tok ≠ "application/json")
    (hd : jsTruthy (jsGet args "distinct-id") = true)
    (he : jsTruthy (jsGet args "event") = true) :
    (∃ d, mixTrackEvent (some tok) args (Except.ok props) true resp = Except.ok (d, 0) ∧
      trackBodyToken d = some (Json.str tok) ∧
      d.lookup "headers" = some (headersJson [("Content-Type", "application/json")]) ∧
      ∀ v ∈ headerValues [("Content-Type", "application/json")], v ≠ tok) ∧
    (∃ d, mixProfilesSet (some tok) args (Except.ok props) true resp = Except.ok (d, 0) ∧
      engageBodyToken d = some (Json.str tok) ∧
      d.lookup "headers" = some (headersJson [("Content-Type", "application/json")])) := by
  have hgate : envFalsy (some tok) = false := by simp [envFalsy, h1]
  have hval : ∀ (P : List (String × Json)),
      Json.lookup.go (objSet (objSet P "token" (Json.str tok)) "distinct_id"
        (jsValToJson (flagVal args "distinct-id"))) "token" = some (Json.str tok) := by
    intro P
    rw [lookupGo_objSet_ne _ (by decide) _, lookupGo_objSet_self]
  constructor
  · by_cases hp : jsTruthy (jsGet args "properties") = true
    · have hres : mixTrackEvent (some tok) args (Except.ok props) true resp =
          Except.ok (Json.obj ([("_dry_run", Json.bool true), ("method", Json.str "POST"),
            ("url", Json.str (mixIngestionBase ++ "/track")),
            ("headers", headersJson [("Content-Type", "application/json")])] ++
            bodyField (some (Json.arr [Json.obj
              [("event", jsValToJson (flagVal args "event")),
               ("properties", Json.obj (objSet (objSet props "token" (Json.str tok))
                 "distinct_id" (jsValToJson (flagVal args "distinct-id"))))]]))), 0) := by
        simp [mixTrackEvent, hgate, hd, he, hp, mixIngestApi]
      refine ⟨_, hres, hval props, rfl, ?_⟩
      intro v hv
      simp only [headerValues, List.map, List.mem_singleton] at hv
      subst hv
      exact fun hc => h2 hc.symm
    · have hres : mixTrackEvent (some tok) args (Except.ok props) true resp =
          Except.ok (Json.obj ([("_dry_run", Json.bool true), ("method", Json.str "POST"),
            ("url", Json.str (mixIngestionBase ++ "/track")),
            ("headers", headersJson [("Content-Type", "application/json")])] ++
            bodyField (some (Json.arr [Json.obj
              [("event", jsValToJson (flagVal args "event")),
               ("properties", Json.obj (objSet (objSet [] "token" (Json.str tok))
                 "distinct_id" (jsValToJson (flagVal args "distinct-id"))))]]))), 0) := by
        simp [mixTrackEvent, hgate, hd, he, hp, mixIngestApi]
      refine ⟨_, hres, hval [], rfl, ?_⟩
      intro v hv
      simp only [headerValues, List.map, List.mem_singleton] at hv
      subst hv
      exact fun hc => h2 hc.symm
  · by_cases hp : jsTruthy (jsGet args "properties") = true
    · have hres : mixProfilesSet (some tok) args (Except.ok props) true resp =
          Except.ok (Json.obj ([("_dry_run", Json.bool true), ("method", Json.str "POST"),
            ("url", Json.str (mixIngestionBase ++ "/engage")),
            ("headers", headersJson [("Content-Type", "application/json")])] ++
            bodyField (some (Json.arr [Json.obj
              [("$token", Json.str tok),
               ("$distinct_id", jsValToJson (flagVal args "distinct-id")),
               ("$set", Json.obj props)]]))), 0) := by
        simp [mixProfilesSet, hgate, hd, hp, mixIngestApi]
      exact ⟨_, hres, rfl, rfl⟩
    · have hres : mixProfilesSet (some tok) args (Except.ok props) true resp =
          Except.ok (Json.obj ([("_dry_run", Json.bool true), ("method", Json.str "POST"),
            ("url", Json.str (mixIngestionBase ++ "/engage")),
            ("headers", headersJson [("Content-Type", "application/json")])] ++
            bodyField (some (Json.arr [Json.obj
              [("$token", Json.str tok),
               ("$distinct_id", jsValToJson (flagVal args "distinct-id")),
               ("$set", Json.obj ([] : List (String × Json)))]]))), 0) := by
        simp [mixProfilesSet, hgate, hd, hp, mixIngestApi]
      exact ⟨_, hres, rfl, rfl⟩

/-- C10 witness: the raw-token theorem applied at a concrete token and
arguments. -/
theorem mixpanel_ingestion_body_holds_raw_token_witness :
    ("tk-42" ≠ "" ∧ "tk-42" ≠ "application/json") ∧
    ∃ d, mixTrackEvent (some "tk-42")
        [("_", JsVal.arr ["track", "event"]), ("distinct-id", JsVal.str "u1"),
          ("event", JsVal.str "Sale"), ("dry-run", JsVal.bool true)]
        (Except.ok []) true respNone = Except.ok (d, 0) ∧
      trackBodyToken d = some (Json.str "tk-42") ∧
      d.lookup "headers" = some (headersJson [("Content-Type", "application/json")]) ∧
      ∀ v ∈ headerValues [("Content-Type", "application/json")], v ≠ "tk-42" :=
  ⟨⟨by decide, by decide⟩,
    (mixpanel_ingestion_body_holds_raw_token "tk-42"
      [("_", JsVal.arr ["track", "event"]), ("distinct-id", JsVal.str "u1"),
        ("event", JsVal.str "Sale"), ("dry-run", JsVal.bool true)]
      [] respNone (by decide) (by decide) (by decide) (by decide)).1⟩

end Marketing

namespace Marketing

/-! ## Claim C6: OAuth token fetched at most once, failure is structured -/

/-- A filled hotjar cache slot satisfies every later call without fetching. -/
lemma hotjarTokenRun_cached (n : Nat) (tok : String) (t : TokenResp) :
    (hotjarTokenRun n (some tok) t).2 = 0 := by
  induction n with
  | zero => rfl
  | succ n ih => simp [hotjarTokenRun, hotjarGetToken, ih]

/-- C6: in any hotjar process, any number of successive `getToken` calls
perform at most one token fetch (a success fills the single cache slot, a
failure throws and ends the process); a filled trustpilot slot is returned
without fetching and a single `getAccessToken` call fetches at most once;
and a token response without `access_token` is surfaced as structured JSON
in both tools — hotjar's throw reaches the boundary and becomes the stderr
`{error}` exit-1 outcome (never an unhandled crash), while trustpilot's
`api` returns the structured `{error}` object through stdout with no
resource fetch. -/
theorem oauth_token_cached_and_failure_structured :
    (∀ (n : Nat) (t : TokenResp), (hotjarTokenRun n none t).2 ≤ 1) ∧
    (∀ (tok : String) (secret tresp : Option String),
      tpGetAccessToken (some tok) secret tresp = (some tok, some tok, 0)) ∧
    (∀ (cache secret tresp : Option String),
      (tpGetAccessToken cache secret tresp).2.2 ≤ 1) ∧
    (∀ (t : TokenResp) (resp : HttpResp) (method path : String),
      t.accessToken = none →
      hotjarApi false none t resp method path = (Except.error t.errMsg, 1)) ∧
    (∀ (m : String) (resp : HttpResp),
      hotjarRun (some "cid") (some "csecret") ["sites", "list"] ⟨none, m⟩ resp =
        (ProcOutcome.caught m, 1)) ∧
    (∀ (apiKey : String) (secret : Option String) (args : JsObj) (resp : HttpResp),
      envFalsy secret = false →
      jsTruthy (jsGet args "id") = true → jsTruthy (jsGet args "message") = true →
      jsTruthy (jsGet args "dry-run") = false →
      tpReviewsReply apiKey secret args none resp =
        (errJson "TRUSTPILOT_API_SECRET required for private API endpoints", 1)) := by
  refine ⟨?_, fun tok secret tresp => rfl, ?_, ?_, fun m resp => rfl, ?_⟩
  · intro n t
    match n with
    | 0 => exact Nat.zero_le 1
    | Nat.succ n =>
      cases ht : t.accessToken with
      | none => simp [hotjarTokenRun, hotjarGetToken, ht]
      | some tok => simp [hotjarTokenRun, hotjarGetToken, ht, hotjarTokenRun_cached]
  · intro cache secret tresp
    match cache with
    | some tok => exact Nat.zero_le 1
    | none =>
      by_cases hs : envFalsy secret = true
      · simp [tpGetAccessToken, hs]
      · cases tresp <;> simp [tpGetAccessToken, hs]
  · intro t resp method path ht
    simp [hotjarApi, hotjarGetToken, ht]
  · intro apiKey secret args resp hs hid hmsg hdry
    simp [tpReviewsReply, tpApi, tpGetAccessToken, hs, hid, hmsg, hdry]

/-- C6 witness: the token theorem applied at concrete inputs — two hotjar
`getToken` calls against a failing endpoint fetch once, and a concrete
trustpilot bearer call with a token response lacking `access_token` returns
the structured error. -/
theorem oauth_token_cached_and_failure_structured_witness :
    (hotjarTokenRun 2 none ⟨none, "boom"⟩).2 ≤ 1 ∧
    tpReviewsReply "k" (some "sec")
        [("_", JsVal.arr ["reviews", "reply"]), ("id", JsVal.str "r1"),
          ("message", JsVal.str "thanks")] none respNone =
      (errJson "TRUSTPILOT_API_SECRET required for private API endpoints", 1) :=
  ⟨(oauth_token_cached_and_failure_structured).1 2 ⟨none, "boom"⟩,
    (oauth_token_cached_and_failure_structured).2.2.2.2.2 "k" (some "sec")
      [("_", JsVal.arr ["reviews", "reply"]), ("id", JsVal.str "r1"),
        ("message", JsVal.str "thanks")] respNone (by decide) (by decide) (by decide)
      (by decide)⟩

end Marketing

namespace Marketing

/-! ## Claim C8: missing required flags -/

/-- C8 counterexample: semrush declares `--domain` as required in its usage
text but has no guard.  Omitting it in live mode still issues the network
call (fetch count 1, result is the parsed response, not a flag error), and
the dry-run descriptor shows the query serialized with the literal
`domain=undefined`. -/
theorem semrush_missing_required_flag_still_fetches :
    semrushRun (some "KEY") ["domain", "overview"] respNone =
      (ProcOutcome.printed (Json.arr []), 1) ∧
    (match (semrushRun (some "KEY") ["domain", "overview", "--dry-run"] respNone).1 with
      | ProcOutcome.printed d => d.lookup "url"
      | _ => none) = some (Json.str
        "https://api.semrush.com/?type=domain_ranks&export_columns=Db%2CDn%2CRk%2COr%2COt%2COc%2CAd%2CAt%2CAc&domain=undefined&key=***&export_escape=1") :=
  ⟨rfl, rfl⟩

/-- C8 amended: tools that guard their required flags behave as the claim
says.  Klaviyo's `profiles get` without a truthy `--id` returns the `{error}`
object naming the flag through the normal output path with no fetch (shown
at handler and whole-process level), and tiktok-ads `campaigns create`
without `--name` or `--objective` does the same; semrush has no such guards
and issues the request with `undefined` serialized into the query. -/
theorem guarded_missing_flag_yields_error (key : String) (args : JsObj)
    (pos : List String) (now : String) (resp : HttpResp) (envAdv : Option String)
    (dryRun : Bool) :
    (pos.get? 0 = some "profiles" → pos.get? 1 = some "get" →
      jsTruthy (jsGet args "id") = false →
      klaviyoMain key args pos now resp = Except.ok (errJson "--id required", 0)) ∧
    "id".data <:+: "--id required".data ∧
    (∀ now2 resp2, klaviyoRun (some "k") ["profiles", "get"] now2 resp2 =
      (ProcOutcome.printed (errJson "--id required"), 0)) ∧
    (jsTruthy (tiktokAdvertiserId args envAdv) = true →
      (¬ jsTruthy (jsGet args "name") = true ∨
        ¬ jsTruthy (jsGet args "objective") = true) →
      tiktokCampaignsCreate args envAdv dryRun resp =
        (errJson "--name and --objective required", 0)) ∧
    "name".data <:+: "--name and --objective required".data ∧
    "objective".data <:+: "--name and --objective required".data := by
  refine ⟨?_, by decide, fun now2 resp2 => rfl, ?_, by decide, by decide⟩
  · intro h0 h1 hid
    have h0' : pos[0]? = some "profiles" := by simpa using h0
    have h1' : pos[1]? = some "get" := by simpa using h1
    simp [klaviyoMain, h0', h1', hid]
  · intro hadv hmiss
    unfold tiktokCampaignsCreate
    rw [if_neg (by simp [hadv]), if_pos hmiss]

/-- C8 witness: the guarded-flag theorem applied at concrete arguments. -/
theorem guarded_missing_flag_yields_error_witness :
    klaviyoMain "k" [("_", JsVal.arr ["profiles", "get"])] ["profiles", "get"] "T"
      respNone = Except.ok (errJson "--id required", 0) ∧
    tiktokCampaignsCreate [("_", JsVal.arr ["campaigns", "create"])] (some "adv123")
      false respNone = (errJson "--name and --objective required", 0) :=
  ⟨(guarded_missing_flag_yields_error "k" [("_", JsVal.arr ["profiles", "get"])]
      ["profiles", "get"] "T" respNone (some "adv123") false).1 rfl rfl (by decide),
   (guarded_missing_flag_yields_error "k" [("_", JsVal.arr ["campaigns", "create"])]
      ["campaigns", "create"] "T" respNone (some "adv123") false).2.2.2.1
      (by decide) (Or.inl (by decide))⟩

end Marketing

namespace Marketing

/-! ## Claim C2: the top-level error boundary -/

/-- C2 counterexample: the module-scope `parseArgs` call sits outside
`main().catch`, so an exception thrown while parsing (here the `--_`
positional clobber) escapes as an uncaught `TypeError` — a stack trace, not
the `{error}` JSON the claim requires. -/
theorem module_scope_parse_exception_uncaught :
    klaviyoRun (some "k") ["--_", "x", "y"] "T" respNone =
      (ProcOutcome.crash "result._.push is not a function", 0) := rfl

/-- C2 amended: every exception raised inside `main`'s dispatch-and-execute
chain is caught exactly once by `main().catch`, converted to `{error}`,
printed to stderr as JSON, and the process exits 1 (the run can never be the
crash outcome once module scope completes, and a throwing `main` yields
exactly the caught outcome); but exceptions in module-scope argument parsing
or positional destructuring are outside the boundary.  The last conjunct
shows a concrete caught exception: a boolean `--profiles` flag makes
`args.profiles?.split` throw inside `main`, which surfaces as the caught
`{error}` exit-1 outcome with no fetch. -/
theorem main_exceptions_caught_once_at_boundary (key : String) (tokens : List String)
    (now : String) (resp : HttpResp) (args : JsObj) (pos : List String)
    (hkey : key ≠ "") (hparse : parseArgs tokens = Except.ok args)
    (hdest : destructUnderscore (jsGet args "_") = Except.ok pos) :
    (∀ e, (klaviyoRun (some key) tokens now resp).1 ≠ ProcOutcome.crash e) ∧
    (∀ e, klaviyoMain key args pos now resp = Except.error e →
      klaviyoRun (some key) tokens now resp = (ProcOutcome.caught e, 0)) ∧
    klaviyoRun (some "k") ["lists", "add-profiles", "--id", "1", "--profiles"] now resp =
      (ProcOutcome.caught "args.profiles.split is not a function", 0) := by
  have hrun : klaviyoRun (some key) tokens now resp =
      (match klaviyoMain key args pos now resp with
        | Except.ok (j, n) => (ProcOutcome.printed j, n)
        | Except.error e => (ProcOutcome.caught e, 0)) := by
    simp [klaviyoRun, hkey, hparse, hdest]
  refine ⟨?_, ?_, rfl⟩
  · intro e
    rw [hrun]
    split <;> simp
  · intro e he
    rw [hrun, he]

/-- C2 witness: the boundary theorem applied at a concrete run. -/
theorem main_exceptions_caught_once_at_boundary_witness :
    (klaviyoRun (some "k") ["profiles", "get"] "T" respNone).1 ≠
      ProcOutcome.crash "boom" :=
  (main_exceptions_caught_once_at_boundary "k" ["profiles", "get"] "T" respNone
    [("_", JsVal.arr ["profiles", "get"])] ["profiles", "get"]
    (by decide) rfl rfl).1 "boom"

end Marketing

namespace Marketing

/-! ## Claim C5: dry-run idempotence -/

/-- C5 counterexample: klaviyo `events create` embeds the current clock
reading (`new Date().toISOString()`) in the request body, so two dry-run
invocations with the same ParsedArguments at different instants print
different RequestDescriptors. -/
theorem events_create_dryrun_embeds_clock :
    klaviyoRun (some "k")
        ["events", "create", "--metric", "m", "--email", "e", "--dry-run"]
        "2024-01-01T00:00:00.000Z" respNone ≠
      klaviyoRun (some "k")
        ["events", "create", "--metric", "m", "--email", "e", "--dry-run"]
        "2024-01-02T00:00:00.000Z" respNone := by
  intro hcon
  have h1 : timeOfRun (klaviyoRun (some "k")
      ["events", "create", "--metric", "m", "--email", "e", "--dry-run"]
      "2024-01-01T00:00:00.000Z" respNone) = some (Json.str "2024-01-01T00:00:00.000Z") := rfl
  have h2 : timeOfRun (klaviyoRun (some "k")
      ["events", "create", "--metric", "m", "--email", "e", "--dry-run"]
      "2024-01-02T00:00:00.000Z" respNone) = some (Json.str "2024-01-02T00:00:00.000Z") := rfl
  rw [hcon] at h1
  have h3 := h1.symm.trans h2
  simp only [Option.some.injEq, Json.str.injEq] at h3
  exact absurd h3 (by decide)

/-- C5 amended: dry-run output is byte-identical across invocations — a
pure function of the ParsedArguments — for every dispatched command whose
RequestDescriptor embeds no clock reading, and dry-run performs zero fetches
throughout.  Four commands do embed the clock and are the exceptions:
klaviyo `events create` always writes `attributes.time`; intercom
`events create` defaults `created_at` to the current epoch when
`--created-at` is omitted; google-search-console `search query/pages/
countries` default `startDate`/`endDate` from the clock when the date flags
are omitted; mixpanel `query events` defaults `from_date`/`to_date` from the
clock when the date flags are omitted.  Each of the last three is proved
clock-independent once its flags pin the values, and clock-dependent at a
concrete input when they are omitted. -/
theorem dryrun_idempotent_without_clock_reads (args : JsObj) :
    (jsTruthy (jsGet args "dry-run") = true →
      (∀ key pos now resp, fetchesOf (klaviyoMain key args pos now resp) = 0) ∧
      (∀ pos, ¬ (pos.get? 0 = some "events" ∧ pos.get? 1 = some "create") →
        ∀ key now1 now2 resp1 resp2,
          klaviyoMain key args pos now1 resp1 = klaviyoMain key args pos now2 resp2)) ∧
    (jsTruthy (jsGet args "created-at") = true →
      ∀ apiKey n1 n2 meta dryRun resp,
        intercomEventsCreate apiKey args n1 meta dryRun resp =
          intercomEventsCreate apiKey args n2 meta dryRun resp) ∧
    intercomEventsCreate "k"
        [("_", JsVal.arr ["events", "create"]), ("name", JsVal.str "Sale"),
          ("user-id", JsVal.str "u1"), ("dry-run", JsVal.bool true)]
        100 [] true respNone ≠
      intercomEventsCreate "k"
        [("_", JsVal.arr ["events", "create"]), ("name", JsVal.str "Sale"),
          ("user-id", JsVal.str "u1"), ("dry-run", JsVal.bool true)]
        200 [] true respNone ∧
    (jsTruthy (jsGet args "start-date") = true → jsTruthy (jsGet args "end-date") = true →
      ∀ tok sub d1 e1 d2 e2 dryRun resp,
        gscSearch tok args sub d1 e1 dryRun resp = gscSearch tok args sub d2 e2 dryRun resp) ∧
    gscSearch "t"
        [("_", JsVal.arr ["search", "query"]), ("site-url", JsVal.str "example.com"),
          ("dry-run", JsVal.bool true)]
        (some "query") "2024-01-01" "2024-01-29" true respNone ≠
      gscSearch "t"
        [("_", JsVal.arr ["search", "query"]), ("site-url", JsVal.str "example.com"),
          ("dry-run", JsVal.bool true)]
        (some "query") "2024-02-01" "2024-02-28" true respNone ∧
    (jsTruthy (jsGet args "from-date") = true → jsTruthy (jsGet args "to-date") = true →
      ∀ ak sec f1 t1 f2 t2 dryRun resp,
        mixQueryEvents ak sec args f1 t1 dryRun resp =
          mixQueryEvents ak sec args f2 t2 dryRun resp) ∧
    mixQueryEvents (some "ak") (some "sec")
        [("_", JsVal.arr ["query", "events"]), ("project-id", JsVal.str "123"),
          ("dry-run", JsVal.bool true)]
        "2024-01-01" "2024-01-31" true respNone ≠
      mixQueryEvents (some "ak") (some "sec")
        [("_", JsVal.arr ["query", "events"]), ("project-id", JsVal.str "123"),
          ("dry-run", JsVal.bool true)]
        "2024-02-01" "2024-03-02" true respNone := by
  refine ⟨fun hdry => ⟨?_, ?_⟩, ?_, ?_, ?_, ?_, ?_, ?_⟩
  · intro key pos now resp
    simp only [klaviyoMain, hdry]
    split <;> (try split) <;> (try split) <;> (try split) <;> (try split) <;>
      simp_all [klaviyoApi, fetchesOf]
  · intro pos hnot key now1 now2 resp1 resp2
    simp only [klaviyoMain, hdry]
    split <;> (try split) <;> (try split) <;> (try split) <;> (try split) <;>
      simp_all [klaviyoApi]
  · intro h apiKey n1 n2 meta dryRun resp
    simp [intercomEventsCreate, h]
  · intro hcon
    have h3 : some (Json.num (JsNumber.ofInt 100)) = some (Json.num (JsNumber.ofInt 200)) :=
      congrArg
        (fun r : Json × Nat => (r.1.lookup "body").bind (fun b => b.lookup "created_at")) hcon
    simp only [Option.some.injEq, Json.num.injEq, JsNumber.ofInt.injEq] at h3
    exact absurd h3 (by decide)
  · intro hs he tok sub d1 e1 d2 e2 dryRun resp
    simp [gscSearch, hs, he]
  · intro hcon
    have h3 : some (Json.str "2024-01-01") = some (Json.str "2024-02-01") :=
      congrArg
        (fun r : Json × Nat => (r.1.lookup "body").bind (fun b => b.lookup "startDate")) hcon
    simp only [Option.some.injEq, Json.str.injEq] at h3
    exact absurd h3 (by decide)
  · intro hf ht ak sec f1 t1 f2 t2 dryRun resp
    simp [mixQueryEvents, hf, ht]
  · intro hcon
    have h3 : some (Json.str "2024-01-01") = some (Json.str "2024-02-01") :=
      congrArg
        (fun r : Json × Nat => ((((r.1.lookup "body").bind (fun b => b.lookup "params")).bind
          (fun p => p.lookup "time_range")).bind (fun t => t.lookup "from_date"))) hcon
    simp only [Option.some.injEq, Json.str.injEq] at h3
    exact absurd h3 (by decide)

/-- C5 witness: the idempotence theorem applied at a concrete dry-run
`campaigns list` invocation. -/
theorem dryrun_idempotent_without_clock_reads_witness :
    klaviyoMain "k" [("_", JsVal.arr ["campaigns", "list"]), ("dry-run", JsVal.bool true)]
        ["campaigns", "list"] "2024-01-01T00:00:00.000Z" respNone =
      klaviyoMain "k" [("_", JsVal.arr ["campaigns", "list"]), ("dry-run", JsVal.bool true)]
        ["campaigns", "list"] "2024-02-02T00:00:00.000Z" ⟨500, "x", none⟩ :=
  ((dryrun_idempotent_without_clock_reads
    [("_", JsVal.arr ["campaigns", "list"]), ("dry-run", JsVal.bool true)]).1
    (by decide)).2 ["campaigns", "list"] (by decide) "k"
    "2024-01-01T00:00:00.000Z" "2024-02-02T00:00:00.000Z" respNone ⟨500, "x", none⟩

end Marketing

namespace Marketing

/-! ## Claim C9: unknown commands and subcommands -/

/-- C9 counterexample: an unknown subcommand of a known command produces an
`{error}` object whose message lists the valid subcommands, but the response
has no `usage` field — the structured `{error, usage}` shape the claim
requires exists only at the primary-command level.  The process still exits
0 through stdout with no fetch. -/
theorem unknown_subcommand_lacks_usage_field :
    klaviyoRun (some "k") ["profiles", "bogus"] "T" respNone =
      (ProcOutcome.printed
        (errJson "Unknown profiles subcommand. Use: list, get, create, update"), 0) ∧
    (errJson "Unknown profiles subcommand. Use: list, get, create, update").lookup
      "usage" = none :=
  ⟨rfl, rfl⟩

/-- C9 amended: unknown primary commands (including a missing one) yield the
`{error, usage}` usage object, and unknown or missing subcommands of a known
command yield an `{error}` object whose message lists the valid options for
that level; in both cases nothing is thrown, the result flows through the
normal output path with zero fetches, and the process exits 0 (shown
end-to-end by the last conjunct). -/
theorem unknown_commands_structured_no_throw (key : String) (args : JsObj)
    (pos : List String) (now : String) (resp : HttpResp) :
    (∀ c, pos.get? 0 = some c → c ∉ klaviyoCmds →
      klaviyoMain key args pos now resp = Except.ok (klaviyoUsage, 0)) ∧
    (pos.get? 0 = none → klaviyoMain key args pos now resp = Except.ok (klaviyoUsage, 0)) ∧
    (∀ c, pos.get? 0 = some c → c ∈ klaviyoCmds →
      (∀ s, pos.get? 1 = some s → s ∉ klaviyoSubsOf c) →
      klaviyoMain key args pos now resp = Except.ok (errJson (klaviyoSubErrMsg c), 0)) ∧
    klaviyoUsage.lookup "error" = some (Json.str "Unknown command") ∧
    (klaviyoUsage.lookup "usage").isSome = true ∧
    (∀ now2 resp2, klaviyoRun (some "k") ["nope"] now2 resp2 =
      (ProcOutcome.printed klaviyoUsage, 0)) := by
  refine ⟨?_, ?_, ?_, rfl, rfl, fun now2 resp2 => rfl⟩
  · intro c h0 hc
    simp only [klaviyoMain]
    rw [h0]
    split <;> simp_all [klaviyoCmds]
  · intro h0
    simp only [klaviyoMain]
    rw [h0]
  · intro c h0 hcm hsub
    simp only [klaviyoCmds, List.mem_cons, List.not_mem_nil, or_false] at hcm
    rcases hcm with rfl | rfl | rfl | rfl | rfl | rfl | rfl | rfl <;>
      (simp only [klaviyoMain]
       rw [h0]
       simp [klaviyoSubErrMsg]
       split <;>
         first
           | rfl
           | (rename_i heq; exact absurd (hsub _ (by simpa using heq)) (by simp [klaviyoSubsOf])))

/-- C9 witness: the structured-response theorem applied at concrete unknown
commands. -/
theorem unknown_commands_structured_no_throw_witness :
    klaviyoMain "k" [("_", JsVal.arr ["frobnicate"])] ["frobnicate"] "T" respNone =
      Except.ok (klaviyoUsage, 0) ∧
    klaviyoMain "k" [("_", JsVal.arr ["campaigns", "zap"])] ["campaigns", "zap"] "T"
      respNone = Except.ok (errJson "Unknown campaigns subcommand. Use: list, get", 0) :=
  ⟨(unknown_commands_structured_no_throw "k" [("_", JsVal.arr ["frobnicate"])]
      ["frobnicate"] "T" respNone).1 "frobnicate" rfl (by decide),
   (unknown_commands_structured_no_throw "k" [("_", JsVal.arr ["campaigns", "zap"])]
      ["campaigns", "zap"] "T" respNone).2.2.1 "campaigns" rfl (by decide)
      (fun s hs => by
        simp only [List.get?] at hs
        cases hs
        decide)⟩

end Marketing
